import Mathlib

/-
Verification model of the certificate lifecycle subsystem of the
sprintframework repository (pkg/core: certificate_issuer_service.go,
certificate_service.go, certificate_repository.go).

The Go code is shallowly embedded: cryptographic primitives (RSA keys,
x509 certificates, PEM encoding, SHA-1 key identifiers) are modelled
symbolically, randomness is passed in as explicit seed arguments
(rand.Int(reader, bound) becomes seed % bound), the wall clock is the
symbolic instant GoTime.now, and external collaborators (key-value
store, lego ACME client, DNS providers, idna, whois, file system) are
oracle fields of an environment record.  Fallible Go functions
returning (T, error) become Except Err T or T times Option Err; the
one Go panic path a claim depends on (nil certificate resource
dereference after a swallowed ACME error) is an explicit constructor.
-/

namespace SprintCert

abbrev Err := String

/-- Wraps a string in ASCII single quotes, as the Go format verb 0x25s inside
quotes does in error messages. -/
def sq (s : String) : String := "\x27" ++ s ++ "\x27"

/-- Models errors.Wrapf: the context message, a colon separator, then the cause. -/
def wrapErr (ctx : String) (e : Err) : Err := ctx ++ ": " ++ e

def dotChar : Char := Char.ofNat 46

/-- Go fmt verb 0x25plus-v applied to a string slice: space separated inside brackets. -/
def goFmtStrs (l : List String) : String := "[" ++ String.intercalate (" ") l ++ "]"

/-- util.ToFqdn: append a trailing dot unless empty or already present. -/
def toFqdn (name : String) : String :=
  if name.length = 0 || name.data.getLast? == some dotChar then name else name ++ "."

/-- util.UnFqdn: remove one trailing dot if present. -/
def unFqdn (name : String) : String :=
  if name.length != 0 && name.data.getLast? == some dotChar then name.dropRight 1 else name

/-- strings.Trim(s, rune-dot): drop leading and trailing dots. -/
def trimDots (s : String) : String :=
  String.mk (((s.data.dropWhile (fun c => c == dotChar)).reverse.dropWhile
    (fun c => c == dotChar)).reverse)

/-- A symbolic instant of time.  time.Now() is the single symbolic instant now;
Time.AddDate is recorded syntactically. -/
inductive GoTime where
  | now : GoTime
  | addDate (t : GoTime) (years months days : Int) : GoTime
  deriving DecidableEq, Repr

/-- Abstract public keys; each generated RSA key determines one. -/
abbrev PubKey := Nat

/-- A symbolic RSA private key, identified by the seed rsa.GenerateKey consumed. -/
structure RsaKey where
  seed : Nat
  deriving DecidableEq, Repr

/-- The public half of an RSA key; injective in the key. -/
def RsaKey.pub (k : RsaKey) : PubKey := k.seed

/-- sprint.CertificateDesc: the subject description loaded from configuration. -/
structure CertificateDesc where
  organization : String
  country : String
  province : String
  city : String
  street : String
  zip : String
  deriving DecidableEq, Repr

/-- pkix.Name as used by the issuer service (string-slice valued fields). -/
structure PkixName where
  commonName : String
  organization : List String
  country : List String
  province : List String
  locality : List String
  streetAddress : List String
  postalCode : List String
  deriving DecidableEq, Repr

def emptyPkixName : PkixName :=
  { commonName := "", organization := [], country := [], province := [],
    locality := [], streetAddress := [], postalCode := [] }

/-- A subject or authority key identifier: the SHA-1 of the marshaled
SubjectPublicKeyInfo bit string of a public key (calculateSKID). -/
inductive KeyId where
  | sha1OfSPKI (pub : PubKey) : KeyId
  deriving DecidableEq, Repr

/-- Abstract IP address (net.IP). -/
abbrev IP := Nat

def IP.str (ip : IP) : String := toString ip

inductive ExtKeyUsage where
  | serverAuth : ExtKeyUsage
  | clientAuth : ExtKeyUsage
  deriving DecidableEq, Repr

/-- x509.KeyUsage bit flags used by the issuer service. -/
def keyUsageDigitalSignature : Nat := 1
def keyUsageKeyEncipherment : Nat := 4
def keyUsageCertSign : Nat := 32
def keyUsageCRLSign : Nat := 64

/-- An x509 certificate, restricted to the fields the repository reads or sets. -/
structure X509Cert where
  subject : PkixName
  issuer : PkixName
  serialNumber : Nat
  notBefore : GoTime
  notAfter : GoTime
  subjectKeyId : Option KeyId
  authorityKeyId : Option KeyId
  keyUsage : Nat
  extKeyUsage : List ExtKeyUsage
  basicConstraintsValid : Bool
  isCA : Bool
  maxPathLenZero : Bool
  dnsNames : List String
  ipAddresses : List IP
  pubKey : PubKey
  deriving DecidableEq, Repr

/-- x509.CreateCertificate(rand, template, parent, pub, signKey): the resulting
DER carries the template fields, the issuer name of the parent, the given
public key, and inherits the parent subject key id as authority key id when
the template leaves it unset (Go crypto/x509 behavior). -/
def createCertificate (template parent : X509Cert) (pub : PubKey) (_signKey : RsaKey) :
    X509Cert :=
  { template with
    issuer := parent.subject
    pubKey := pub
    authorityKeyId := match template.authorityKeyId with
      | none => parent.subjectKeyId
      | some a => some a }

/-- The payload of a PEM block in this model. -/
inductive PemBody where
  | keyBody (k : RsaKey) : PemBody
  | certBody (c : X509Cert) : PemBody
  deriving DecidableEq, Repr

structure PemBlock where
  type : String
  body : PemBody
  deriving DecidableEq, Repr

/-- Byte-slice contents: nil, a PEM block, opaque bytes, a string, or a
concatenation written by a bytes.Buffer. -/
inductive Blob where
  | empty : Blob
  | pem (b : PemBlock) : Blob
  | bytes (n : Nat) : Blob
  | str (s : String) : Blob
  | concat (a b : Blob) : Blob
  deriving DecidableEq, Repr

/-- A nil []byte in Go maps to Blob.empty. -/
def Blob.isNil : Blob → Bool
  | .empty => true
  | _ => false

/-- string(contents) for contents produced by a string conversion. -/
def Blob.asString : Blob → String
  | .str s => s
  | _ => ""

/-- All PEM blocks in the byte stream, in order. -/
def pemBlocks : Blob → List PemBlock
  | .empty => []
  | .pem b => [b]
  | .bytes _ => []
  | .str _ => []
  | .concat a b => pemBlocks a ++ pemBlocks b

/-- pem.Decode: the first PEM block, if any. -/
def pemDecode (b : Blob) : Option PemBlock := (pemBlocks b).head?

def pemEncodeKey (k : RsaKey) : Blob := .pem { type := "RSA PRIVATE KEY", body := .keyBody k }

def pemEncodeCert (c : X509Cert) : Blob := .pem { type := "CERTIFICATE", body := .certBody c }

/-- readPrivateKey: decode one PEM block, check its type, parse PKCS1. -/
def readPrivateKey (keyContents : Blob) : Except Err RsaKey :=
  match pemDecode keyContents with
  | none => .error ("no PEM found")
  | some block =>
    if block.type != "RSA PRIVATE KEY" && block.type != "ECDSA PRIVATE KEY" then
      .error ("incorrect PEM type " ++ block.type)
    else
      match block.body with
      | .keyBody k => .ok k
      | _ => .error ("x509: failed to parse PKCS1 private key")

/-- readCert: decode one PEM block, check its type, parse the certificate. -/
def readCert (certContents : Blob) : Except Err X509Cert :=
  match pemDecode certContents with
  | none => .error ("no PEM found")
  | some block =>
    if block.type != "CERTIFICATE" then
      .error ("incorrect PEM type " ++ block.type)
    else
      match block.body with
      | .certBody c => .ok c
      | _ => .error ("x509: malformed certificate")

/-- publicKeysEqual: marshal both keys and compare bytes; marshaling of the
abstract public keys always succeeds and is injective. -/
def publicKeysEqual (a b : PubKey) : Except Err Bool := .ok (a == b)

/-- calculateSKID: SHA-1 of the marshaled SubjectPublicKey bit string. -/
def calculateSKID (pub : PubKey) : Except Err KeyId := .ok (.sha1OfSPKI pub)

/-- strings.ReplaceAll for a single-character pattern, the only shape the
issuer service uses (star to underscore, space to dash). -/
def goReplaceAll (s : String) (pat rep : Char) : String :=
  String.mk (s.data.map (fun ch => if ch == pat then rep else ch))

def goToLower (s : String) : String := String.mk (s.data.map Char.toLower)

def starChar : Char := Char.ofNat 42
def underscoreChar : Char := Char.ofNat 95
def spaceChar : Char := Char.ofNat 32
def dashChar : Char := Char.ofNat 45

/-- math.MaxInt64. -/
def maxInt64 : Nat := 2 ^ 63 - 1

/-- rand.Int(rand.Reader, big.NewInt(bound)): a value in [0, bound) determined
by the consumed entropy. -/
def randInt (seed bound : Nat) : Nat := seed % bound

/-- big.Int.Bytes(), fueled so that it evaluates by reduction: big-endian
bytes, empty for zero.  The value itself is always enough fuel. -/
def natBytesAux : Nat → Nat → List Nat
  | 0, _ => []
  | fuel + 1, n => if n = 0 then [] else natBytesAux fuel (n / 256) ++ [n % 256]

def natBytes (n : Nat) : List Nat := natBytesAux n n

def hexDigit (n : Nat) : Char := if n < 10 then Char.ofNat (48 + n) else Char.ofNat (87 + n)

def byteHex (b : Nat) : String := String.mk [hexDigit (b / 16 % 16), hexDigit (b % 16)]

def bytesHex (l : List Nat) : String := String.join (l.map byteHex)

/-- fmt 0x25x of serial.Bytes() sliced to its first three bytes.  The slice
expression panics when the serial has fewer than three bytes; the panic is
surfaced as an error value of this model. -/
def serialTag3 (serial : Nat) : Except Err String :=
  let bs := natBytes serial
  if bs.length < 3 then .error ("runtime error: slice bounds out of range")
  else .ok (bytesHex (bs.take 3))

/-- implCertificateIssuerService: configuration fields. -/
structure IssuerService where
  rsaLen : Nat
  organization : String
  country : String
  province : String
  city : String
  street : String
  zip : String
  deriving DecidableEq, Repr

/-- LoadCertificateDesc: builds the subject description from configuration. -/
def loadCertificateDesc (t : IssuerService) : Except Err CertificateDesc :=
  .ok { organization := t.organization, country := t.country, province := t.province,
        city := t.city, street := t.street, zip := t.zip }

/-- makeKey: generate an RSA key and its PKCS1 PEM encoding. -/
def makeKey (_t : IssuerService) (seed : Nat) : RsaKey × Blob :=
  let key : RsaKey := { seed := seed }
  (key, pemEncodeKey key)

/-- An issued certificate: PEM contents, parsed certificate, private key. -/
structure IssuedCertificate where
  certContents : Blob
  keyContents : Blob
  x509Cert : X509Cert
  key : RsaKey
  deriving DecidableEq, Repr

/-- certificateIssuer: a certificate with an optional parent issuer. -/
inductive CertificateIssuer where
  | mk (cert : IssuedCertificate) (parent : Option CertificateIssuer) : CertificateIssuer

def CertificateIssuer.cert : CertificateIssuer → IssuedCertificate
  | .mk c _ => c

def CertificateIssuer.parent : CertificateIssuer → Option CertificateIssuer
  | .mk _ p => p

def issuerDepth : CertificateIssuer → Nat
  | .mk _ none => 1
  | .mk _ (some p) => issuerDepth p + 1

def firstElement (arr : List String) : String :=
  match arr with
  | [] => ""
  | a :: _ => a

def getCertificateDesc (cert : X509Cert) : CertificateDesc :=
  { organization := firstElement cert.subject.organization
    country := firstElement cert.subject.country
    province := firstElement cert.subject.province
    city := firstElement cert.subject.locality
    street := firstElement cert.subject.streetAddress
    zip := firstElement cert.subject.postalCode }

/-- The pkix.Name built by the issuance templates from a common name and a
subject description. -/
def templateName (cn : String) (desc : CertificateDesc) : PkixName :=
  { commonName := cn
    organization := [desc.organization]
    country := [desc.country]
    province := [desc.province]
    locality := [desc.city]
    streetAddress := [desc.street]
    postalCode := [desc.zip] }

/-- makeRootCert: random serial, SKID of the key, 100 year self-signed CA
template, CreateCertificate with template as its own parent, PEM encode. -/
def makeRootCert (_t : IssuerService) (cn : String) (desc : CertificateDesc)
    (key : RsaKey) (serialSeed : Nat) : Except Err (X509Cert × Blob) :=
  let serial := randInt serialSeed maxInt64
  match calculateSKID key.pub with
  | .error e => .error e
  | .ok skid =>
  match serialTag3 serial with
  | .error e => .error e
  | .ok tag =>
  let template : X509Cert :=
    { subject := templateName ("Root " ++ cn ++ " " ++ tag) desc
      issuer := emptyPkixName
      serialNumber := serial
      notBefore := .now
      notAfter := .addDate .now 100 0 0
      subjectKeyId := some skid
      authorityKeyId := some skid
      keyUsage := keyUsageDigitalSignature ||| keyUsageCertSign ||| keyUsageCRLSign
      extKeyUsage := []
      basicConstraintsValid := true
      isCA := true
      maxPathLenZero := false
      dnsNames := []
      ipAddresses := []
      pubKey := 0 }
  let cert := createCertificate template template key.pub key
  .ok (cert, pemEncodeCert cert)

/-- makeIntermediateCert: 10 year CA with zero max path length, signed by the
root certificate and key. -/
def makeIntermediateCert (_t : IssuerService) (cn : String) (desc : CertificateDesc)
    (key : RsaKey) (rootCert : X509Cert) (rootKey : RsaKey) (serialSeed : Nat) :
    Except Err (X509Cert × Blob) :=
  let serial := randInt serialSeed maxInt64
  match calculateSKID key.pub with
  | .error e => .error e
  | .ok skid =>
  match serialTag3 serial with
  | .error e => .error e
  | .ok tag =>
  let template : X509Cert :=
    { subject := templateName ("Intermediate " ++ cn ++ " " ++ tag) desc
      issuer := emptyPkixName
      serialNumber := serial
      notBefore := .now
      notAfter := .addDate .now 10 0 0
      subjectKeyId := some skid
      authorityKeyId := some skid
      keyUsage := keyUsageDigitalSignature ||| keyUsageCertSign ||| keyUsageCRLSign
      extKeyUsage := []
      basicConstraintsValid := true
      isCA := true
      maxPathLenZero := true
      dnsNames := []
      ipAddresses := []
      pubKey := 0 }
  let cert := createCertificate template rootCert key.pub rootKey
  .ok (cert, pemEncodeCert cert)

/-- makeRootIssuer: a fresh key plus a root certificate; returns the PEM files. -/
def makeRootIssuer (t : IssuerService) (cn : String) (desc : CertificateDesc)
    (keySeed serialSeed : Nat) : Except Err (Blob × Blob) :=
  let (key, keyFile) := makeKey t keySeed
  match makeRootCert t cn desc key serialSeed with
  | .error e => .error e
  | .ok (_, certFile) => .ok (keyFile, certFile)

/-- makeIntermediateIssuer: description from the root subject, fresh key,
intermediate certificate; returns the PEM files. -/
def makeIntermediateIssuer (t : IssuerService) (cn : String) (rootCert : X509Cert)
    (rootKey : RsaKey) (keySeed serialSeed : Nat) : Except Err (Blob × Blob) :=
  let desc := getCertificateDesc rootCert
  let (key, keyFile) := makeKey t keySeed
  match makeIntermediateCert t cn desc key rootCert rootKey serialSeed with
  | .error e => .error e
  | .ok (_, certFile) => .ok (keyFile, certFile)

/-- CreateIssuer: build the root key and certificate, read both back from
their PEM encodings, verify the public keys correspond. -/
def createIssuer (t : IssuerService) (cn : String) (info : CertificateDesc)
    (keySeed serialSeed : Nat) : Except Err CertificateIssuer :=
  match makeRootIssuer t cn info keySeed serialSeed with
  | .error e => .error e
  | .ok (rootKeyContents, rootCertContents) =>
  match readPrivateKey rootKeyContents with
  | .error e => .error ("reading root private key, " ++ e)
  | .ok rootKey =>
  match readCert rootCertContents with
  | .error e => .error ("reading root certificate, " ++ e)
  | .ok rootCert =>
  match publicKeysEqual rootKey.pub rootCert.pubKey with
  | .error e => .error ("comparing public keys for root certificate: " ++ e)
  | .ok equal =>
  if !equal then
    .error ("public root key in root certificate doesn\x27t match private root key")
  else
    .ok (.mk { certContents := rootCertContents, keyContents := rootKeyContents,
               x509Cert := rootCert, key := rootKey } none)

/-- sprintpb.SelfSigner: a persisted chain level with an optional parent. -/
inductive SelfSignerPb where
  | mk (name : String) (certificate privateKey : Blob) (issuer : Option SelfSignerPb) :
      SelfSignerPb

def SelfSignerPb.name : SelfSignerPb → String
  | .mk n _ _ _ => n

def SelfSignerPb.certificate : SelfSignerPb → Blob
  | .mk _ c _ _ => c

def SelfSignerPb.privateKey : SelfSignerPb → Blob
  | .mk _ _ k _ => k

def SelfSignerPb.issuer : SelfSignerPb → Option SelfSignerPb
  | .mk _ _ _ i => i

def emptySelfSignerPb : SelfSignerPb := .mk "" .empty .empty none

def pbDepth : SelfSignerPb → Nat
  | .mk _ _ _ none => 1
  | .mk _ _ _ (some i) => pbDepth i + 1

/-- loadIssuerRecursive: parse the PEM key and certificate of this level,
verify the public keys correspond, then load the parent level. -/
def loadIssuerRecursive : SelfSignerPb → Except Err CertificateIssuer
  | .mk _ certificate privateKey issuer =>
    match readPrivateKey privateKey with
    | .error e => .error ("reading root private key, " ++ e)
    | .ok key =>
    match readCert certificate with
    | .error e => .error ("reading root x509Cert, " ++ e)
    | .ok x509Cert =>
    match publicKeysEqual key.pub x509Cert.pubKey with
    | .error e => .error ("comparing public keys for x509Cert: " ++ e)
    | .ok equal =>
    if !equal then
      .error ("public key in x509Cert doesn\x27t match private key")
    else
      match issuer with
      | none => .ok (.mk { certContents := certificate, keyContents := privateKey,
                           x509Cert := x509Cert, key := key } none)
      | some i =>
        match loadIssuerRecursive i with
        | .error e => .error e
        | .ok p => .ok (.mk { certContents := certificate, keyContents := privateKey,
                              x509Cert := x509Cert, key := key } (some p))

/-- LoadIssuer delegates to loadIssuerRecursive. -/
def loadIssuer (issuer : SelfSignerPb) : Except Err CertificateIssuer :=
  loadIssuerRecursive issuer

/-- IssueInterCert: build an intermediate below the current issuer, read it
back, verify the keys, and link the current issuer as parent. -/
def issueInterCert (t : IssuerService) (self : CertificateIssuer) (cn : String)
    (keySeed serialSeed : Nat) : Except Err CertificateIssuer :=
  match makeIntermediateIssuer t cn self.cert.x509Cert self.cert.key keySeed serialSeed with
  | .error e => .error e
  | .ok (interKeyContents, interCertContents) =>
  match readPrivateKey interKeyContents with
  | .error e => .error ("reading private key from tls.certificate.inter.key: " ++ e)
  | .ok interKey =>
  match readCert interCertContents with
  | .error e => .error ("reading intermediate CA certificate from tls.certificate.inter.crt: " ++ e)
  | .ok interCert =>
  match publicKeysEqual interKey.pub interCert.pubKey with
  | .error e => .error ("comparing intermediate public keys: " ++ e)
  | .ok equal =>
  if !equal then
    .error ("intermediate public key in CA certificate doesn\x27t match intermediate private key")
  else
    .ok (.mk { certContents := interCertContents, keyContents := interKeyContents,
               x509Cert := interCert, key := interKey } (some self))

/-- IssueServerCert: default the common name from the domains or addresses,
replace wildcards, build a 2 year 30 day leaf for the given SAN names. -/
def issueServerCert (t : IssuerService) (self : CertificateIssuer) (cn : String)
    (domains : List String) (ipAddresses : List IP) (keySeed serialSeed : Nat) :
    Except Err IssuedCertificate :=
  match (if cn = "" then
      if domains.length > 0 then Except.ok (domains.getD 0 "")
      else if ipAddresses.length > 0 then Except.ok (IP.str (ipAddresses.getD 0 0))
      else Except.error ("must specify at least one domain name or IP address")
    else Except.ok cn : Except Err String) with
  | .error e => .error e
  | .ok cn0 =>
  let cn := goReplaceAll cn0 starChar underscoreChar
  let desc := getCertificateDesc self.cert.x509Cert
  let (key, keyPemFile) := makeKey t keySeed
  let serial := randInt serialSeed maxInt64
  let template : X509Cert :=
    { subject := templateName cn desc
      issuer := emptyPkixName
      serialNumber := serial
      notBefore := .now
      notAfter := .addDate .now 2 0 30
      subjectKeyId := none
      authorityKeyId := none
      keyUsage := keyUsageDigitalSignature ||| keyUsageKeyEncipherment
      extKeyUsage := [.serverAuth, .clientAuth]
      basicConstraintsValid := true
      isCA := false
      maxPathLenZero := false
      dnsNames := domains
      ipAddresses := ipAddresses
      pubKey := 0 }
  let cert := createCertificate template self.cert.x509Cert key.pub self.cert.key
  .ok { certContents := pemEncodeCert cert, keyContents := keyPemFile,
        x509Cert := cert, key := key }

/-- The certificate chain collected by IssueClientCert for the PKCS12 archive. -/
def chainCerts : CertificateIssuer → List X509Cert
  | .mk c none => [c.x509Cert]
  | .mk c (some p) => c.x509Cert :: chainCerts p

/-- A PKCS12 archive: key, leaf, CA chain, password. -/
structure Pkcs12 where
  key : RsaKey
  leaf : X509Cert
  caCerts : List X509Cert
  password : String
  deriving DecidableEq, Repr

/-- IssueClientCert: one year client-auth leaf named after the serial tag,
bundled with the full chain into a PKCS12 archive. -/
def issueClientCert (t : IssuerService) (self : CertificateIssuer) (cn : String)
    (password : String) (keySeed serialSeed : Nat) :
    Except Err (IssuedCertificate × Pkcs12) :=
  let _cnName := goToLower (goReplaceAll (goReplaceAll cn starChar underscoreChar) spaceChar dashChar)
  let (key, keyPemFile) := makeKey t keySeed
  let desc := getCertificateDesc self.cert.x509Cert
  let serial := randInt serialSeed maxInt64
  match serialTag3 serial with
  | .error e => .error e
  | .ok tag =>
  let template : X509Cert :=
    { subject := templateName ("Client " ++ cn ++ " " ++ tag) desc
      issuer := emptyPkixName
      serialNumber := serial
      notBefore := .now
      notAfter := .addDate .now 1 0 0
      subjectKeyId := none
      authorityKeyId := none
      keyUsage := keyUsageDigitalSignature
      extKeyUsage := [.clientAuth]
      basicConstraintsValid := true
      isCA := false
      maxPathLenZero := false
      dnsNames := []
      ipAddresses := []
      pubKey := 0 }
  let cert := createCertificate template self.cert.x509Cert key.pub self.cert.key
  let pfx : Pkcs12 := { key := key, leaf := cert, caCerts := chainCerts self,
                        password := password }
  .ok ({ certContents := pemEncodeCert cert, keyContents := keyPemFile,
         x509Cert := cert, key := key }, pfx)

/-- certcrypto.ExtractDomains from the lego library: the common name first,
then every SAN name different from it. -/
def extractDomains (cert : X509Cert) : List String :=
  (if cert.subject.commonName != "" then [cert.subject.commonName] else []) ++
    cert.dnsNames.filter (fun d => d != cert.subject.commonName)

/-- tls.X509KeyPair: collect the CERTIFICATE blocks of the certificate input,
parse the private key, require it to match the leaf certificate. -/
def tlsX509KeyPair (certPEMBlock keyPEMBlock : Blob) : Except Err (List X509Cert) := do
  let certs := (pemBlocks certPEMBlock).filterMap (fun b =>
    if b.type == "CERTIFICATE" then
      match b.body with
      | .certBody c => some c
      | _ => none
    else none)
  match certs with
  | [] => .error ("tls: failed to find any PEM data in certificate input")
  | leaf :: _ => do
    let key ← match (pemBlocks keyPEMBlock).filterMap (fun b =>
        match b.body with
        | .keyBody k => some k
        | _ => none) with
      | [] => .error ("tls: failed to find any PEM data in key input")
      | k :: _ => pure k
    if key.pub != leaf.pubKey then
      .error ("tls: private key does not match public key")
    else
      .ok certs

/-- sprintpb.Certificates: the certificate bundle of a zone. -/
structure CertificatesPb where
  domain : String
  certUrl : String
  certStableUrl : String
  privateKey : Blob
  certificate : Blob
  issuerCertificate : Blob
  csr : Blob
  deriving DecidableEq, Repr

/-- sprintpb.Zone. -/
structure ZonePb where
  zone : String
  domains : List String
  certProvider : String
  selfSigner : String
  acmeEmail : String
  dnsProvider : String
  dnsProviderToken : String
  options : List String
  certificates : Option CertificatesPb
  deriving DecidableEq, Repr

def emptyZonePb : ZonePb :=
  { zone := "", domains := [], certProvider := "", selfSigner := "", acmeEmail := "",
    dnsProvider := "", dnsProviderToken := "", options := [], certificates := none }

/-- sprintpb.AcmeAccount. -/
structure AcmeAccountPb where
  email : String
  publicKey : Blob
  privateKey : Blob
  deriving DecidableEq, Repr

def emptyAcmeAccountPb : AcmeAccountPb := { email := "", publicKey := .empty, privateKey := .empty }

/-- certificate.Resource returned by the lego Obtain and Renew calls. -/
structure AcmeResource where
  domain : String
  certUrl : String
  certStableUrl : String
  privateKey : Blob
  certificate : Blob
  issuerCertificate : Blob
  csr : Blob
  deriving DecidableEq, Repr

/-- A value stored in the key-value backend under the cert bucket. -/
inductive StoreValue where
  | selfSignerV (s : SelfSignerPb) : StoreValue
  | acmeAccountV (a : AcmeAccountPb) : StoreValue
  | zoneV (z : ZonePb) : StoreValue

def certBucket : String := "cert"

def selfKey (name : String) : String := certBucket ++ ":self:" ++ name

def acmeKey (email : String) : String := certBucket ++ ":acme:" ++ email

def zoneKey (zone : String) : String := certBucket ++ ":zone:" ++ zone

/-- zoneChangeEvent. -/
structure ZoneChangeEvent where
  zone : String
  event : String
  deriving DecidableEq, Repr

/-- A registered watcher: its handle and the events delivered to its queue so
far, oldest first. -/
structure Watcher where
  handle : Nat
  queue : List ZoneChangeEvent

/-- implCertificateRepository state: the atomic watch counter, the watcher
registry, and the key-value storage. -/
structure RepoState where
  watchNum : Nat
  watchers : List Watcher
  storage : String → Option StoreValue

/-- registerWatch: increment the counter, store the new watcher under the new
handle; its queue starts empty. -/
def registerWatch (t : RepoState) : RepoState × Nat :=
  let handle := t.watchNum + 1
  ({ t with watchNum := handle,
            watchers := t.watchers ++ [{ handle := handle, queue := [] }] }, handle)

/-- notifyAll: deliver one event to every currently registered watcher. -/
def notifyAll (t : RepoState) (zone event : String) : RepoState :=
  { t with watchers := t.watchers.map (fun w =>
      { w with queue := w.queue ++ [{ zone := zone, event := event }] }) }

/-- SaveZone: write the record; on success notify every watcher with UPDATE.
The outcome of the underlying storage write is the setErr argument. -/
def saveZoneRepo (t : RepoState) (zone : ZonePb) (setErr : Option Err) :
    RepoState × Option Err :=
  match setErr with
  | some e => (t, some e)
  | none =>
    let t := { t with storage := fun k =>
        if k = zoneKey zone.zone then some (.zoneV zone) else t.storage k }
    (notifyAll t zone.zone ("UPDATE"), none)

/-- DeleteZone: remove the record; on success notify every watcher with DELETE. -/
def deleteZoneRepo (t : RepoState) (zone : String) (removeErr : Option Err) :
    RepoState × Option Err :=
  match removeErr with
  | some e => (t, some e)
  | none =>
    let t := { t with storage := fun k =>
        if k = zoneKey zone then none else t.storage k }
    (notifyAll t zone ("DELETE"), none)

/-- SaveSelfSigner: write the chain record keyed by its name. -/
def saveSelfSignerRepo (t : RepoState) (self : SelfSignerPb) : RepoState :=
  { t with storage := fun k =>
      if k = selfKey self.name then some (.selfSignerV self) else t.storage k }

/-- FindSelfSigner: read the record; a missing key yields the empty proto. -/
def findSelfSignerRepo (t : RepoState) (name : String) : SelfSignerPb :=
  match t.storage (selfKey name) with
  | some (.selfSignerV s) => s
  | _ => emptySelfSignerPb

/-- A sealer produced by the seal service for an RSA key pair. -/
structure Sealer where
  encPub : Except Err String
  encPriv : Except Err String
  key : RsaKey

/-- sprint.DNSProvider, reduced to the outcomes of its three operations. -/
structure DNSProvider where
  registerChallenge : String → Option Err
  newClient : Except Err Unit
  detect : String → Bool

/-- sprint.AcmeUser as far as the service observes it. -/
structure AcmeUser where
  email : String
  privateKey : RsaKey

/-- The environment of implCertificateService: configuration values plus
oracles for every external collaborator (repository storage, seal service,
lego client, DNS providers, idna, whois, file system, clock). -/
structure CmdEnv where
  appName : String
  issuerSvc : IssuerService
  keySeedRoot : Nat
  serialSeedRoot : Nat
  keySeedInter : Nat
  serialSeedInter : Nat
  keySeedLeaf : Nat
  serialSeedLeaf : Nat
  keySeedClient : Nat
  serialSeedClient : Nat
  findZone : String → Except Err ZonePb
  saveZone : ZonePb → Option Err
  deleteZone : String → Option Err
  listZones : String → List ZonePb
  listZonesErr : String → Option Err
  findSelfSigner : String → Except Err SelfSignerPb
  saveSelfSigner : SelfSignerPb → Option Err
  listSelfSigners : List SelfSignerPb
  listSelfSignersErr : Option Err
  findAccount : String → Except Err AcmeAccountPb
  saveAccount : AcmeAccountPb → Option Err
  listAccounts : List AcmeAccountPb
  listAccountsErr : Option Err
  issueSealer : Except Err Sealer
  sealerFromKeys : String → String → Except Err Sealer
  idnaToASCII : String → Except Err String
  findZoneByFqdn : String → Except Err String
  whois : String → Except Err String
  whoisParse : String → String
  providerMap : List (String × DNSProvider)
  providerList : List String
  legoNewClient : Except Err Unit
  queryRegistration : Except Err Unit
  register : Except Err Unit
  obtain : Except Err AcmeResource
  renewCall : AcmeResource → Except Err AcmeResource
  acmeLog : String
  localIPAddresses : Bool → Except Err (List IP)
  readFile : String → Except Err Blob
  writeFile : String → Blob → Option Err
  locateAppDir : Except Err String
  unmarshalZone : Blob → Except Err ZonePb
  unmarshalAccount : Blob → Except Err AcmeAccountPb
  unmarshalSelfSigner : Blob → Except Err SelfSignerPb
  protoFormatZone : ZonePb → String
  protoFormatAccount : AcmeAccountPb → String
  protoFormatSelfSigner : SelfSignerPb → String
  hoursLeft : GoTime → Int

/-- CreateAcmeAccount: issue an RSA sealer, encode both keys, save the account. -/
def createAcmeAccount (env : CmdEnv) (email : String) : Option Err :=
  match env.issueSealer with
  | .error e => some e
  | .ok sealer =>
    match sealer.encPub with
    | .error e => some e
    | .ok pubKey =>
      match sealer.encPriv with
      | .error e => some e
      | .ok privKey =>
        env.saveAccount { email := email, publicKey := .str pubKey, privateKey := .str privKey }

/-- GetOrCreateAcmeUser: find the account, create it when its keys are empty,
rebuild the sealer from the encoded keys. -/
def getOrCreateAcmeUser (env : CmdEnv) (email : String) : Except Err AcmeUser :=
  match env.findAccount email with
  | .error e => .error e
  | .ok account =>
  match (if account.publicKey.isNil || account.privateKey.isNil then
      match createAcmeAccount env email with
      | some _ => Except.error ("create acme account " ++ sq email)
      | none => env.findAccount email
    else Except.ok account : Except Err AcmeAccountPb) with
  | .error e => .error e
  | .ok account =>
  match env.sealerFromKeys account.publicKey.asString account.privateKey.asString with
  | .error e => .error e
  | .ok rsa => .ok { email := email, privateKey := rsa.key }

/-- The linked SelfSigner record built by the persistence loop of
CreateSelfSigner: one level per issuer, leaf-most first, parents behind it. -/
def issuerChainToPb : CertificateIssuer → SelfSignerPb
  | .mk cert none => .mk ("") cert.certContents cert.keyContents none
  | .mk cert (some p) => .mk ("") cert.certContents cert.keyContents (some (issuerChainToPb p))

/-- entry.Issuer.Name = cn names the head level only. -/
def SelfSignerPb.withName : SelfSignerPb → String → SelfSignerPb
  | .mk _ c k i, n => .mk n c k i

/-- CreateSelfSigner against the repository oracle of the command environment. -/
def svcCreateSelfSigner (env : CmdEnv) (cn : String) (withInter : Bool) : Option Err :=
  match loadCertificateDesc env.issuerSvc with
  | .error e => some e
  | .ok info =>
    match createIssuer env.issuerSvc cn info env.keySeedRoot env.serialSeedRoot with
    | .error e => some e
    | .ok issuer0 =>
      match (if withInter then
          issueInterCert env.issuerSvc issuer0 cn env.keySeedInter env.serialSeedInter
        else .ok issuer0) with
      | .error e => some e
      | .ok issuer =>
        env.saveSelfSigner ((issuerChainToPb issuer).withName cn)

/-- CreateSelfSigner with the repository state made explicit, for the
round-trip property: the chain is persisted into the key-value storage. -/
def createSelfSignerRepo (svc : IssuerService) (st : RepoState) (cn : String)
    (withInter : Bool) (k1 s1 k2 s2 : Nat) : Except Err RepoState :=
  match loadCertificateDesc svc with
  | .error e => .error e
  | .ok info =>
  match createIssuer svc cn info k1 s1 with
  | .error e => .error e
  | .ok issuer0 =>
  match (if withInter then issueInterCert svc issuer0 cn k2 s2 else .ok issuer0) with
  | .error e => .error e
  | .ok issuer => .ok (saveSelfSignerRepo st ((issuerChainToPb issuer).withName cn))

/-- getOrCreateSelfIssuer: find the named signer, create it when missing,
load the chain. -/
def getOrCreateSelfIssuer (env : CmdEnv) (cn : String) : Except Err CertificateIssuer :=
  match env.findSelfSigner cn with
  | .error e => .error e
  | .ok selfSigner =>
  match (if selfSigner.name = "" then
      match svcCreateSelfSigner env cn false with
      | some e => Except.error (wrapErr ("create self signer " ++ sq cn) e)
      | none => env.findSelfSigner cn
    else Except.ok selfSigner : Except Err SelfSignerPb) with
  | .error e => .error e
  | .ok selfSigner =>
  match loadIssuer selfSigner with
  | .error e => .error (wrapErr ("load self issuer " ++ sq cn) e)
  | .ok issuer => .ok issuer

/-- indexStrings: a set of trimmed strings; modelled as a duplicate-free list
in insertion order. -/
def indexStrings (a : List String) : List String :=
  a.foldl (fun m part =>
    let key := part.trim
    if m.contains key then m else m ++ [key]) []

/-- asList: enumerate the keys of the set. -/
def asList (m : List String) : List String := m

/-- The issuer certificate buffer written by IssueSelfSignedCertificate: the
PEM contents of every chain level, leaf-most issuer first. -/
def chainCertsBlob : CertificateIssuer → Blob
  | .mk c none => c.certContents
  | .mk c (some p) => .concat c.certContents (chainCertsBlob p)

/-- IssueSelfSignedCertificate: default signer, optional localhost and local
addresses, issue the server leaf, store the bundle in the zone entry. -/
def issueSelfSignedCertificate (env : CmdEnv) (entry : ZonePb) : Except Err ZonePb :=
  let entry := if entry.selfSigner = "" then { entry with selfSigner := "localhost" } else entry
  match getOrCreateSelfIssuer env entry.selfSigner with
  | .error e => .error e
  | .ok issuer =>
  let options := indexStrings entry.options
  let domains := indexStrings entry.domains
  let domains :=
    if options.contains ("localhost") then
      if domains.contains ("localhost") then domains else domains ++ ["localhost"]
    else domains
  match (if options.contains ("ip") then env.localIPAddresses (options.contains ("localhost"))
    else .ok [] : Except Err (List IP)) with
  | .error e => .error e
  | .ok ipAddresses =>
  match issueServerCert env.issuerSvc issuer entry.zone (asList domains)
      ipAddresses env.keySeedLeaf env.serialSeedLeaf with
  | .error e => .error e
  | .ok issuedCert =>
  let bundle : CertificatesPb :=
    { domain := entry.zone
      certUrl := ""
      certStableUrl := ""
      privateKey := issuedCert.keyContents
      certificate := issuedCert.certContents
      issuerCertificate := chainCertsBlob issuer
      csr := .empty }
  .ok { entry with certificates := some bundle }

/-- The outcome of IssueAcmeCertificate: a normal return of the captured log
with a nil error and the mutated entry, an error return, or the runtime panic
from dereferencing the nil certificate resource. -/
inductive AcmeCallResult where
  | ret (log : String) (entry : ZonePb) : AcmeCallResult
  | fail (e : Err) : AcmeCallResult
  | nilDeref : AcmeCallResult
  deriving DecidableEq, Repr

/-- The certificate.Resource rebuilt from a stored bundle for a Renew call;
the private key field is not copied. -/
def toResource (renew : CertificatesPb) : AcmeResource :=
  { domain := renew.domain
    certUrl := renew.certUrl
    certStableUrl := renew.certStableUrl
    privateKey := .empty
    certificate := renew.certificate
    issuerCertificate := renew.issuerCertificate
    csr := renew.csr }

/-- The stored bundle built from a certificate.Resource. -/
def fromResource (r : AcmeResource) : CertificatesPb :=
  { domain := r.domain
    certUrl := r.certUrl
    certStableUrl := r.certStableUrl
    privateKey := r.privateKey
    certificate := r.certificate
    issuerCertificate := r.issuerCertificate
    csr := r.csr }

/-- The callback passed to doAcmeCall.  Its reg, err := assignment declares a
fresh err local to the callback, so the enclosing function never sees the
outcome; the model therefore only exposes which resource, if any, was
assigned to the captured certificates variable. -/
def acmeClosure (env : CmdEnv) (call : Except Err AcmeResource) : Option AcmeResource :=
  match env.queryRegistration with
  | .error _ =>
    match env.register with
    | .error _ => none
    | .ok _ => call.toOption
  | .ok _ => call.toOption

/-- Which ACME call IssueAcmeCertificate performs for an entry: Renew over the
rebuilt resource when a full bundle (certificate and issuer certificate) is
stored, Obtain otherwise. -/
def theAcmeCall (env : CmdEnv) (entry : ZonePb) : Except Err AcmeResource :=
  match entry.certificates with
  | some renew =>
    if !renew.certificate.isNil && !renew.issuerCertificate.isNil then
      env.renewCall (toResource renew)
    else env.obtain
  | none => env.obtain

/-- The body of IssueAcmeCertificate after its validations, over the entry
with the defaulted email: user and client setup, provider lookup, challenge
registration, then the Renew or Obtain call inside doAcmeCall.  After the
call the enclosing err is still nil (the callback wrote a shadowing local),
so the function proceeds to build entry.Certificates from the certificates
pointer, which is nil whenever the call failed. -/
def issueAcmeValidated (env : CmdEnv) (entry : ZonePb) : AcmeCallResult :=
  match getOrCreateAcmeUser env entry.acmeEmail with
  | .error e => .fail e
  | .ok _user =>
    match env.legoNewClient with
    | .error e => .fail e
    | .ok _ =>
      match env.providerMap.lookup entry.dnsProvider with
      | none => .fail ("DNS provider " ++ sq entry.dnsProvider ++ " not found")
      | some prov =>
        match prov.registerChallenge entry.dnsProviderToken with
        | some e => .fail ("DNS provider " ++ sq entry.dnsProvider ++
            " does not have credentials, " ++ e)
        | none =>
          let logContent := env.acmeLog
          let certificates : Option AcmeResource := acmeClosure env (theAcmeCall env entry)
          match certificates with
          | none => .nilDeref
          | some res => .ret logContent { entry with certificates := some (fromResource res) }

/-- IssueAcmeCertificate: the three validations, the email default, then the
validated body. -/
def issueAcmeCertificate (env : CmdEnv) (entry : ZonePb) : AcmeCallResult :=
  if entry.domains.length = 0 then
    .fail ("zone name " ++ sq entry.zone ++ " has empty domains")
  else if entry.dnsProvider = "" then
    .fail ("zone name " ++ sq entry.zone ++ " has empty DNS provider")
  else if !((trimDots entry.zone).data.contains dotChar) then
    .fail ("zone name " ++ sq entry.zone ++ " component count invalid")
  else
    issueAcmeValidated env
      (if entry.acmeEmail = "" then
        { entry with acmeEmail := "admin@" ++ firstElement entry.domains }
      else entry)

/-- parseCertificate: concatenate leaf and issuer PEM, build the TLS key
pair, parse the first certificate of the chain. -/
def parseCertificate (cert : Option CertificatesPb) : Except Err X509Cert :=
  match cert with
  | none => .error ("empty certificates")
  | some c =>
    if c.certificate.isNil || c.privateKey.isNil then .error ("empty certificates")
    else
      let buf :=
        if c.issuerCertificate.isNil then c.certificate
        else Blob.concat c.certificate c.issuerCertificate
      match tlsX509KeyPair buf c.privateKey with
      | .error e => .error e
      | .ok tlsCert =>
        match tlsCert with
        | [] => .error ("leaf certificate not found")
        | leaf :: _ => .ok leaf

/-- loadCertificate: read the zone and parse its stored bundle. -/
def loadCertificateZone (env : CmdEnv) (zone : String) : Except Err X509Cert :=
  match env.findZone zone with
  | .error e => .error e
  | .ok entry =>
    if entry.zone ≠ zone then .error ("zone " ++ sq zone ++ " not found")
    else parseCertificate entry.certificates

/-- util.ToZone through the environment: FindZoneByFqdn then UnFqdn. -/
def toZoneEnv (env : CmdEnv) (domain : String) : Except Err String :=
  match env.findZoneByFqdn (toFqdn domain) with
  | .error e => .error e
  | .ok z => .ok (unFqdn z)

/-- delectProviderFromWhois: whois lookup, parse, first provider whose Detect
accepts the response.  The wrap context reproduces the unbalanced quote of the
source format string. -/
def delectProviderFromWhois (env : CmdEnv) (zone : String) : Except Err String :=
  match env.whois zone with
  | .error e => .error (wrapErr ("get whois for zone \x27" ++ zone) e)
  | .ok whoisResult =>
    let whois := env.whoisParse whoisResult
    match env.providerMap.find? (fun p => p.2.detect whois) with
    | some p => .ok p.1
    | none => .error ("DNS provider not found for zone " ++ sq zone ++
        " in whois response " ++ sq whoisResult)

/-- The result of a Go function call that either returns normally or panics. -/
inductive GoOut (α : Type) where
  | ret (a : α) : GoOut α
  | crash : GoOut α
  deriving DecidableEq, Repr

def goBool (b : Bool) : String := if b then "true" else "false"

def clientCertFile : String := "client.crt"

def clientKeyFile : String := "client.key"

/-- RenewCertificate: find the zone, reissue by provider kind, save. -/
def renewCertificate (env : CmdEnv) (zone : String) : GoOut (Option Err) :=
  match env.findZone zone with
  | .error e => .ret (some e)
  | .ok entry =>
    if entry.zone ≠ zone then
      .ret (some ("certificate zone " ++ sq zone ++ " is not found"))
    else
      match entry.certProvider with
      | "self" =>
        match issueSelfSignedCertificate env entry with
        | .error e => .ret (some e)
        | .ok entry2 => .ret (env.saveZone entry2)
      | "acme" =>
        match issueAcmeCertificate env entry with
        | .fail e => .ret (some e)
        | .nilDeref => .crash
        | .ret _ entry2 => .ret (env.saveZone entry2)
      | "custom" => .ret (some ("can not issue custom certificates"))
      | other => .ret (some ("unknown cert provider " ++ sq other))

/-- listCerts: optional prefix argument, CSV of every zone. -/
def listCerts (env : CmdEnv) (args : List String) : String × Option Err :=
  let pfx := match args with
    | [] => ""
    | p :: _ => p
  let header := "Zone,Domains,Provider,Options,Issued\n"
  let rows := (env.listZones pfx).foldl (fun acc entry =>
    let provider := match entry.certProvider with
      | "self" => entry.certProvider ++ "(" ++ entry.selfSigner ++ ")"
      | "acme" => entry.certProvider ++ "(" ++ entry.acmeEmail ++ ") with DNS-01 by " ++
          entry.dnsProvider
      | "custom" => "custom"
      | _ => entry.certProvider
    acc ++ entry.zone ++ "," ++ goFmtStrs entry.domains ++ "," ++ provider ++ "," ++
      goFmtStrs entry.options ++ "," ++ goBool (entry.certificates != none) ++ "\n") header
  (rows, env.listZonesErr pfx)

/-- dumpCert: usage on a missing zone argument, otherwise the formatted record. -/
def dumpCert (env : CmdEnv) (args : List String) : String × Option Err :=
  if args.length < 1 then
    ("Usage: ./" ++ env.appName ++ " cert dump zone", none)
  else
    let zone := args.getD 0 ""
    match env.findZone zone with
    | .error e => ("", some e)
    | .ok entry => (env.protoFormatZone entry, none)

/-- uploadCert: read a dump file, unmarshal, validate, save. -/
def uploadCert (env : CmdEnv) (args : List String) : String × Option Err :=
  if args.length < 1 then
    ("Usage: ./" ++ env.appName ++ " cert upload dump_file.json", none)
  else
    match env.readFile (args.getD 0 "") with
    | .error e => ("", some e)
    | .ok jsonContents =>
      match env.unmarshalZone jsonContents with
      | .error e => ("", some e)
      | .ok entry =>
        if entry.zone = "" then ("", some ("empty zone in entry"))
        else if entry.domains.length = 0 then ("", some ("empty domains in entry"))
        else if entry.certProvider = "" then
          ("", some ("empty certificate provider in entry"))
        else
          match env.saveZone entry with
          | some e => ("", some e)
          | none => ("OK", none)

/-- createSelfCert: create a self-signed zone for the registrable zone of the
argument, warn when the named signer does not exist yet. -/
def createSelfCert (env : CmdEnv) (args : List String) : String × Option Err :=
  if args.length < 1 then
    ("Usage: ./" ++ env.appName ++ " cert create self domain [self-signer]", none)
  else
    let domain := unFqdn (args.getD 0 "")
    let rest := args.drop 1
    match env.idnaToASCII domain with
    | .error e =>
      ("", some (wrapErr ("domain name " ++ sq domain ++ " contains invalid character") e))
    | .ok punycode =>
      match toZoneEnv env punycode with
      | .error e => ("", some e)
      | .ok zone =>
        match env.findZone zone with
        | .error e => ("", some e)
        | .ok exist =>
          if exist.zone ≠ "" then ("", some ("zone " ++ sq zone ++ " already exist"))
          else
            let domains := [zone, "*." ++ zone]
            let selfSigner := if rest.length > 0 then rest.getD 0 "" else "localhost"
            match env.findSelfSigner selfSigner with
            | .error e => ("", some e)
            | .ok ss =>
              let warning :=
                if ss.name ≠ selfSigner then
                  "Warning: self signed root certificates " ++ sq selfSigner ++
                    " were not found"
                else ""
              let entry : ZonePb := { emptyZonePb with
                zone := zone, domains := domains, certProvider := "self",
                selfSigner := selfSigner }
              match issueSelfSignedCertificate env entry with
              | .error e =>
                ("", some (wrapErr ("issue self signed certificate for zone " ++ sq zone ++
                  ", domains " ++ sq (goFmtStrs domains)) e))
              | .ok entry2 =>
                match parseCertificate entry2.certificates with
                | .error e => ("", some e)
                | .ok x509Cert =>
                  match env.saveZone entry2 with
                  | some e => ("", some e)
                  | none =>
                    let domains2 := extractDomains x509Cert
                    let hours := env.hoursLeft x509Cert.notAfter
                    let msg := "Created self-signed certificate [" ++ zone ++
                      "] for domains " ++ goFmtStrs domains2 ++ " with " ++
                      toString hours ++ " hours remaining"
                    (if warning ≠ "" then msg ++ "\n" ++ warning else msg, none)

/-- createAcmeCert: resolve account, zone and provider, issue through ACME,
persist, and assemble the success message with optional warnings. -/
def createAcmeCert (env : CmdEnv) (args : List String) : GoOut (String × Option Err) :=
  if args.length < 2 then
    .ret ("Usage: ./" ++ env.appName ++ " cert create acme domain email [dns_provider]", none)
  else
    let domain := unFqdn (args.getD 0 "")
    let email := goToLower (args.getD 1 "")
    let dnsProvider := if args.length > 2 then goToLower (args.getD 2 "") else ""
    match env.findAccount email with
    | .error e => .ret ("", some e)
    | .ok acc =>
      let warning :=
        if acc.email ≠ email then "Warning: ACME account " ++ sq email ++ " was not found"
        else ""
      match env.idnaToASCII domain with
      | .error e =>
        .ret ("", some (wrapErr ("domain name " ++ sq domain ++
          " contains invalid character") e))
      | .ok punycode =>
        match toZoneEnv env punycode with
        | .error e => .ret ("", some e)
        | .ok zone =>
          match env.findZone zone with
          | .error e => .ret ("", some e)
          | .ok exist =>
            if exist.zone ≠ "" then .ret ("", some ("zone " ++ sq zone ++ " already exist"))
            else
              let domains := [zone, "*." ++ zone]
              let resolved : Except Err String :=
                if dnsProvider = "" then
                  match delectProviderFromWhois env zone with
                  | .error e =>
                    .error (wrapErr ("detect provider from whois for zone \x27" ++ zone) e)
                  | .ok p => .ok p
                else .ok dnsProvider
              match resolved with
              | .error e => .ret ("", some e)
              | .ok dnsProvider =>
                match env.providerMap.lookup dnsProvider with
                | none =>
                  .ret ("", some ("dns provider " ++ sq dnsProvider ++
                    " not found in supported list " ++ goFmtStrs env.providerList))
                | some prov =>
                  let ask : Option Err :=
                    match prov.newClient with
                    | .error e => some ("Warning: token for DNS provider " ++ dnsProvider ++
                        " not found, " ++ e)
                    | .ok _ => none
                  let entry : ZonePb := { emptyZonePb with
                    zone := zone, domains := domains, certProvider := "acme",
                    acmeEmail := email, dnsProvider := dnsProvider }
                  match issueAcmeCertificate env entry with
                  | .nilDeref => .crash
                  | .fail e =>
                    .ret ("", some (wrapErr ("issue acme certificate for zone " ++ sq zone ++
                      ", domains " ++ sq (goFmtStrs domains)) e))
                  | .ret msg entry2 =>
                    match parseCertificate entry2.certificates with
                    | .error e => .ret ("", some e)
                    | .ok x509Cert =>
                      match env.saveZone entry2 with
                      | some e => .ret ("", some e)
                      | none =>
                        let domains2 := extractDomains x509Cert
                        let hours := env.hoursLeft x509Cert.notAfter
                        let msg := msg ++ "\nAcme issued certificate [" ++ zone ++
                          "] for domains " ++ goFmtStrs domains2 ++ " with " ++
                          toString hours ++ " hours remaining"
                        let msg := match ask with
                          | some a => msg ++ "\n" ++ a
                          | none => msg
                        let msg := if warning ≠ "" then msg ++ "\n" ++ warning else msg
                        .ret (msg, none)

/-- createCustomCert: read the three files, parse, persist. -/
def createCustomCert (env : CmdEnv) (args : List String) : String × Option Err :=
  if args.length < 4 then
    ("Usage: ./" ++ env.appName ++ " cert create custom domain cert_file key_file issuer_cert_file",
      none)
  else
    let domain := unFqdn (args.getD 0 "")
    let certFile := args.getD 1 ""
    let keyFile := args.getD 2 ""
    let issuerCertFile := args.getD 3 ""
    match env.idnaToASCII domain with
    | .error e =>
      ("", some (wrapErr ("domain name " ++ sq domain ++ " contains invalid character") e))
    | .ok punycode =>
      match toZoneEnv env punycode with
      | .error e => ("", some e)
      | .ok zone =>
        match env.findZone zone with
        | .error e => ("", some e)
        | .ok exist =>
          if exist.zone ≠ "" then ("", some ("zone " ++ sq zone ++ " already exist"))
          else
            match env.readFile certFile with
            | .error e => ("", some (wrapErr ("read file " ++ sq certFile) e))
            | .ok certContents =>
              match env.readFile keyFile with
              | .error e => ("", some (wrapErr ("read file " ++ sq keyFile) e))
              | .ok keyContents =>
                match env.readFile issuerCertFile with
                | .error e => ("", some (wrapErr ("read file " ++ sq issuerCertFile) e))
                | .ok issuerCertContents =>
                  let bundle : CertificatesPb :=
                    { domain := domain
                      certUrl := ""
                      certStableUrl := ""
                      privateKey := keyContents
                      certificate := certContents
                      issuerCertificate := issuerCertContents
                      csr := .empty }
                  let entry : ZonePb := { emptyZonePb with
                    zone := zone, certProvider := "custom", certificates := some bundle }
                  match parseCertificate entry.certificates with
                  | .error e => ("", some e)
                  | .ok x509Cert =>
                    let domains := extractDomains x509Cert
                    let hours := env.hoursLeft x509Cert.notAfter
                    let entry := { entry with domains := domains }
                    match env.saveZone entry with
                    | some e => ("", some e)
                    | none =>
                      ("Uploaded certificate [" ++ zone ++ "] for domains " ++
                        goFmtStrs domains ++ " with " ++ toString hours ++
                        " hours remaining", none)

/-- createCert: dispatch on the provider kind; unknown kinds fall through to
an empty successful result. -/
def createCert (env : CmdEnv) (args : List String) : GoOut (String × Option Err) :=
  if args.length < 1 then
    .ret ("Usage: ./" ++ env.appName ++ " cert create cert_provider [self,acme,custom]", none)
  else
    let certProvider := args.getD 0 ""
    let rest := args.drop 1
    match certProvider with
    | "self" => .ret (createSelfCert env rest)
    | "acme" => createAcmeCert env rest
    | "custom" => .ret (createCustomCert env rest)
    | _ => .ret ("", none)

/-- renewCert: renew the zone then report the reloaded certificate. -/
def renewCert (env : CmdEnv) (args : List String) : GoOut (String × Option Err) :=
  if args.length < 1 then
    .ret ("Usage: ./" ++ env.appName ++ " cert renew zone", none)
  else
    let zone := args.getD 0 ""
    match renewCertificate env zone with
    | .crash => .crash
    | .ret (some e) => .ret ("", some e)
    | .ret none =>
      match loadCertificateZone env zone with
      | .error e => .ret ("", some (wrapErr ("load certificate for zone " ++ sq zone) e))
      | .ok x509Cert =>
        let domains := extractDomains x509Cert
        let hours := env.hoursLeft x509Cert.notAfter
        .ret ("Succesfull renewal of certificate [" ++ zone ++ "] for domains " ++
          goFmtStrs domains ++ " with " ++ toString hours ++ " hours remaining", none)

/-- removeCert: delete an existing zone. -/
def removeCert (env : CmdEnv) (args : List String) : String × Option Err :=
  if args.length < 1 then
    ("Usage: ./" ++ env.appName ++ " cert remove zone", none)
  else
    let zone := args.getD 0 ""
    match env.findZone zone with
    | .error e => ("", some e)
    | .ok exist =>
      if exist.zone = "" then ("", some ("zone " ++ sq zone ++ " not found"))
      else
        match env.deleteZone zone with
        | some e => ("", some e)
        | none =>
          ("Succesfull removed certificate [" ++ zone ++ "] for domains " ++
            goFmtStrs exist.domains ++ " ", none)

/-- installClientCert: issue a client certificate for a self-signed zone and
write the two files into the application folder. -/
def installClientCert (env : CmdEnv) (args : List String) : String × Option Err :=
  if args.length < 1 then
    ("Usage: ./" ++ env.appName ++ " cert client install zone", none)
  else
    let zone := args.getD 0 ""
    match env.findZone zone with
    | .error e => ("", some e)
    | .ok entry =>
      if entry.zone = "" then ("", some ("zone " ++ sq zone ++ " not found"))
      else
        let certsEmpty := match entry.certificates with
          | none => true
          | some c => c.certificate.isNil || c.issuerCertificate.isNil
        if certsEmpty then ("", some ("zone " ++ sq zone ++ " has empty certificates"))
        else if entry.certProvider ≠ "self" then
          ("", some ("only self signed zones are supported"))
        else
          let entry :=
            if entry.selfSigner = "" then { entry with selfSigner := "localhost" }
            else entry
          match getOrCreateSelfIssuer env entry.selfSigner with
          | .error e => ("", some e)
          | .ok issuer =>
            match issueClientCert env.issuerSvc issuer entry.zone ("")
                env.keySeedClient env.serialSeedClient with
            | .error e => ("", some e)
            | .ok (issuedCert, _pfx) =>
              match env.locateAppDir with
              | .error e => ("", some e)
              | .ok appFolder =>
                let file := appFolder ++ "/" ++ clientCertFile
                match env.writeFile file issuedCert.certContents with
                | some e =>
                  ("", some (wrapErr ("writing certificate to file " ++ sq file) e))
                | none =>
                  let file2 := appFolder ++ "/" ++ clientKeyFile
                  match env.writeFile file2 issuedCert.keyContents with
                  | some e => ("", some (wrapErr ("writing key to file " ++ sq file2) e))
                  | none => ("OK", none)

/-- clientCert: dispatch of the client subcommands. -/
def clientCert (env : CmdEnv) (args : List String) : String × Option Err :=
  if args.length < 1 then
    ("Usage: ./" ++ env.appName ++ " cert client [install]", none)
  else
    let cmd := args.getD 0 ""
    let rest := args.drop 1
    match cmd with
    | "install" => installClientCert env rest
    | _ => ("", some ("unknown cert client command " ++ sq cmd))

/-- acmeList: the emails of every stored account. -/
def acmeList (env : CmdEnv) (_args : List String) : String × Option Err :=
  let out := env.listAccounts.foldl (fun acc account => acc ++ account.email ++ "\n") "Email\n"
  (out, env.listAccountsErr)

/-- acmeCreate: create an account for the lowercased email. -/
def acmeCreate (env : CmdEnv) (args : List String) : String × Option Err :=
  if args.length < 1 then
    ("Usage: ./" ++ env.appName ++ " cert acme create email", none)
  else
    let email := goToLower (args.getD 0 "")
    match createAcmeAccount env email with
    | some e => ("", some e)
    | none => ("Created ACME Account for " ++ email, none)

/-- acmeUpload: read a dump file (the read error is overwritten by the
following unmarshal assignment, as in the source), validate, save. -/
def acmeUpload (env : CmdEnv) (args : List String) : String × Option Err :=
  if args.length < 1 then
    ("Usage: ./" ++ env.appName ++ " cert acme upload dump_file.json", none)
  else
    let jsonContents := match env.readFile (args.getD 0 "") with
      | .ok b => b
      | .error _ => .empty
    match env.unmarshalAccount jsonContents with
    | .error e => ("", some e)
    | .ok acc =>
      if acc.email = "" then ("", some ("empty email in account"))
      else
        match env.sealerFromKeys acc.publicKey.asString acc.privateKey.asString with
        | .error e => ("", some (wrapErr ("parse acme account " ++ sq acc.email) e))
        | .ok _ =>
          match env.saveAccount acc with
          | some e => ("", some e)
          | none => ("OK", none)

/-- acmeDump: format one stored account. -/
def acmeDump (env : CmdEnv) (args : List String) : String × Option Err :=
  if args.length < 1 then
    ("Usage: ./" ++ env.appName ++ " cert acme dump email", none)
  else
    let email := goToLower (args.getD 0 "")
    match env.findAccount email with
    | .error e => ("", some e)
    | .ok entry =>
      if entry.email = "" then ("", some ("acme account " ++ sq email ++ " not found"))
      else (env.protoFormatAccount entry, none)

/-- acmeCommand: dispatch of the acme subcommands. -/
def acmeCommand (env : CmdEnv) (args : List String) : String × Option Err :=
  if args.length < 1 then
    ("Usage: ./" ++ env.appName ++ " cert acme [list create upload dump]", none)
  else
    let cmd := args.getD 0 ""
    let rest := args.drop 1
    match cmd with
    | "list" => acmeList env rest
    | "create" => acmeCreate env rest
    | "upload" => acmeUpload env rest
    | "dump" => acmeDump env rest
    | _ => ("", some ("unknown acme command: " ++ cmd))

/-- selfList: the names of every stored self signer. -/
def selfList (env : CmdEnv) (_args : List String) : String × Option Err :=
  let out := env.listSelfSigners.foldl (fun acc s => acc ++ s.name ++ "\n") "Name\n"
  (out, env.listSelfSignersErr)

/-- selfCreate: create a root-only self signer for the lowercased name. -/
def selfCreate (env : CmdEnv) (args : List String) : String × Option Err :=
  if args.length < 1 then
    ("Usage: ./" ++ env.appName ++ " cert self create cn", none)
  else
    let cn := goToLower (args.getD 0 "")
    match svcCreateSelfSigner env cn false with
    | some e => ("", some e)
    | none => ("Created Self Signer with name " ++ sq cn, none)

/-- selfUpload: read a dump file, unmarshal, validate by loading, save. -/
def selfUpload (env : CmdEnv) (args : List String) : String × Option Err :=
  if args.length < 1 then
    ("Usage: ./" ++ env.appName ++ " cert self upload dump_file_json", none)
  else
    match env.readFile (args.getD 0 "") with
    | .error e => ("", some e)
    | .ok jsonContents =>
      match env.unmarshalSelfSigner jsonContents with
      | .error e => ("", some e)
      | .ok signer =>
        if signer.name = "" then ("", some ("empty name in self signer"))
        else
          match loadIssuer signer with
          | .error e => ("", some (wrapErr ("parse self issuer " ++ sq signer.name) e))
          | .ok _ =>
            match env.saveSelfSigner signer with
            | some e => ("", some e)
            | none => ("OK", none)

/-- selfDump: format one stored self signer. -/
def selfDump (env : CmdEnv) (args : List String) : String × Option Err :=
  if args.length < 1 then
    ("Usage: ./" ++ env.appName ++ " cert self dump cn", none)
  else
    let cn := goToLower (args.getD 0 "")
    match env.findSelfSigner cn with
    | .error e => ("", some e)
    | .ok entry =>
      if entry.name = "" then ("", some ("self signer " ++ sq cn ++ " not found"))
      else (env.protoFormatSelfSigner entry, none)

/-- selfCommand: dispatch of the self subcommands. -/
def selfCommand (env : CmdEnv) (args : List String) : String × Option Err :=
  if args.length < 1 then
    ("Usage: ./" ++ env.appName ++ " cert self [list create upload dump]", none)
  else
    let cmd := args.getD 0 ""
    let rest := args.drop 1
    match cmd with
    | "list" => selfList env rest
    | "create" => selfCreate env rest
    | "upload" => selfUpload env rest
    | "dump" => selfDump env rest
    | _ => ("", some ("unknown self command: " ++ cmd))

/-- ExecuteCommand: the administrative command surface. -/
def executeCommand (env : CmdEnv) (cmd : String) (args : List String) :
    GoOut (String × Option Err) :=
  match cmd with
  | "list" => .ret (listCerts env args)
  | "dump" => .ret (dumpCert env args)
  | "upload" => .ret (uploadCert env args)
  | "create" => createCert env args
  | "renew" => renewCert env args
  | "remove" => .ret (removeCert env args)
  | "client" => .ret (clientCert env args)
  | "acme" => .ret (acmeCommand env args)
  | "self" => .ret (selfCommand env args)
  | _ => .ret ("", some ("unknown command " ++ sq cmd))

/-- The email the ACME issuance actually uses: defaulted to the admin address
of the first domain when the entry has none. -/
def effectiveAcmeEmail (entry : ZonePb) : String :=
  if entry.acmeEmail = "" then "admin@" ++ firstElement entry.domains else entry.acmeEmail

def exOk {α : Type} : Except Err α → Bool
  | .ok _ => true
  | .error _ => false

/-- One persisted chain level parses and its keys correspond. -/
def selfSignerLevelOk (certificate privateKey : Blob) : Bool :=
  match readPrivateKey privateKey, readCert certificate with
  | .ok k, .ok c => k.pub == c.pubKey
  | _, _ => false

/-- Every level of a persisted chain parses with corresponding keys. -/
def selfSignerParses : SelfSignerPb → Bool
  | .mk _ c k none => selfSignerLevelOk c k
  | .mk _ c k (some i) => selfSignerLevelOk c k && selfSignerParses i

/-- Every level of a loaded chain has a public key matching its private key. -/
def issuerKeysMatch : CertificateIssuer → Bool
  | .mk cert none => cert.x509Cert.pubKey == cert.key.pub
  | .mk cert (some p) => (cert.x509Cert.pubKey == cert.key.pub) && issuerKeysMatch p

/-- A well-formed in-memory chain: at each level the stored blobs are the PEM
encodings of the parsed certificate and key, and the keys correspond. -/
def issuerWF : CertificateIssuer → Bool
  | .mk cert none =>
    cert.certContents == pemEncodeCert cert.x509Cert &&
    cert.keyContents == pemEncodeKey cert.key &&
    cert.x509Cert.pubKey == cert.key.pub
  | .mk cert (some p) =>
    (cert.certContents == pemEncodeCert cert.x509Cert &&
     cert.keyContents == pemEncodeKey cert.key &&
     cert.x509Cert.pubKey == cert.key.pub) && issuerWF p

/-- A loaded chain is equivalent to a persisted record: same depth, the same
certificate and private key bytes at each level, and corresponding keys. -/
def chainMatchesPb : CertificateIssuer → SelfSignerPb → Bool
  | .mk cert p, .mk _ cb kb i =>
    (cert.certContents == cb && cert.keyContents == kb &&
     cert.x509Cert.pubKey == cert.key.pub) &&
    match p, i with
    | none, none => true
    | some pc, some pi => chainMatchesPb pc pi
    | _, _ => false

/- Sample concrete values used by witnesses. -/

def defaultX509 : X509Cert :=
  { subject := emptyPkixName, issuer := emptyPkixName, serialNumber := 0,
    notBefore := .now, notAfter := .now, subjectKeyId := none, authorityKeyId := none,
    keyUsage := 0, extKeyUsage := [], basicConstraintsValid := false, isCA := false,
    maxPathLenZero := false, dnsNames := [], ipAddresses := [], pubKey := 0 }

def svc1 : IssuerService :=
  { rsaLen := 2048, organization := "Org", country := "US", province := "CA",
    city := "SF", street := "Main", zip := "94000" }

def desc1 : CertificateDesc :=
  { organization := "Org", country := "US", province := "CA", city := "SF",
    street := "Main", zip := "94000" }

def key1 : RsaKey := { seed := 11 }

def rootPair1 : X509Cert × Blob :=
  match makeRootCert svc1 ("ca") desc1 key1 (2 ^ 20) with
  | .ok p => p
  | .error _ => (defaultX509, .empty)

def rootIssuer1 : CertificateIssuer :=
  match createIssuer svc1 ("ca") desc1 11 (2 ^ 20) with
  | .ok i => i
  | .error _ =>
    .mk { certContents := .empty, keyContents := .empty, x509Cert := defaultX509,
          key := key1 } none

def interPair1 : X509Cert × Blob :=
  match makeIntermediateCert svc1 ("inter") desc1 { seed := 12 }
      rootIssuer1.cert.x509Cert rootIssuer1.cert.key (2 ^ 20 + 1) with
  | .ok p => p
  | .error _ => (defaultX509, .empty)

def serverCert1 : IssuedCertificate :=
  match issueServerCert svc1 rootIssuer1 ("") (["a.example.com", "*.a.example.com"])
      [] 13 (2 ^ 20 + 2) with
  | .ok c => c
  | .error _ =>
    { certContents := .empty, keyContents := .empty, x509Cert := defaultX509, key := key1 }

def clientPair1 : IssuedCertificate × Pkcs12 :=
  match issueClientCert svc1 rootIssuer1 ("cli") ("") 14 (2 ^ 20 + 3) with
  | .ok p => p
  | .error _ =>
    ({ certContents := .empty, keyContents := .empty, x509Cert := defaultX509, key := key1 },
     { key := key1, leaf := defaultX509, caCerts := [], password := "" })

def leafCert1 : X509Cert :=
  { defaultX509 with
    subject := { emptyPkixName with commonName := "ex.com" }
    dnsNames := ["ex.com", "*.ex.com"]
    notAfter := .addDate .now 2 0 30
    pubKey := 9 }

def caCert1 : X509Cert := { defaultX509 with isCA := true, pubKey := 10 }

def resource1 : AcmeResource :=
  { domain := "ex.com"
    certUrl := "u"
    certStableUrl := "su"
    privateKey := .pem { type := "RSA PRIVATE KEY", body := .keyBody { seed := 9 } }
    certificate := .pem { type := "CERTIFICATE", body := .certBody leafCert1 }
    issuerCertificate := .pem { type := "CERTIFICATE", body := .certBody caCert1 }
    csr := .empty }

def provOk : DNSProvider :=
  { registerChallenge := fun _ => none, newClient := .ok (), detect := fun _ => true }

def baseEnv : CmdEnv :=
  { appName := "sprint"
    issuerSvc := svc1
    keySeedRoot := 21
    serialSeedRoot := 2 ^ 20 + 11
    keySeedInter := 22
    serialSeedInter := 2 ^ 20 + 12
    keySeedLeaf := 23
    serialSeedLeaf := 2 ^ 20 + 13
    keySeedClient := 24
    serialSeedClient := 2 ^ 20 + 14
    findZone := fun _ => .ok emptyZonePb
    saveZone := fun _ => none
    deleteZone := fun _ => none
    listZones := fun _ => []
    listZonesErr := fun _ => none
    findSelfSigner := fun _ => .ok emptySelfSignerPb
    saveSelfSigner := fun _ => none
    listSelfSigners := []
    listSelfSignersErr := none
    findAccount := fun em => .ok { email := em, publicKey := .str "PUB", privateKey := .str "PRIV" }
    saveAccount := fun _ => none
    listAccounts := []
    listAccountsErr := none
    issueSealer := .ok { encPub := .ok "PUB", encPriv := .ok "PRIV", key := { seed := 7 } }
    sealerFromKeys := fun _ _ => .ok { encPub := .ok "PUB", encPriv := .ok "PRIV", key := { seed := 7 } }
    idnaToASCII := fun s => .ok s
    findZoneByFqdn := fun s => .ok s
    whois := fun _ => .ok "whois-response"
    whoisParse := fun s => s
    providerMap := [("gandi", provOk)]
    providerList := ["gandi"]
    legoNewClient := .ok ()
    queryRegistration := .ok ()
    register := .ok ()
    obtain := .ok resource1
    renewCall := fun _ => .ok resource1
    acmeLog := "LOG"
    localIPAddresses := fun _ => .ok []
    readFile := fun _ => .ok .empty
    writeFile := fun _ _ => none
    locateAppDir := .ok "/app"
    unmarshalZone := fun _ => .error ("unmarshal zone")
    unmarshalAccount := fun _ => .error ("unmarshal account")
    unmarshalSelfSigner := fun _ => .error ("unmarshal signer")
    protoFormatZone := fun _ => "json"
    protoFormatAccount := fun _ => "json"
    protoFormatSelfSigner := fun _ => "json"
    hoursLeft := fun _ => 100 }

lemma randInt_lt_maxInt64 (s : Nat) : randInt s maxInt64 < 2 ^ 63 - 1 :=
  Nat.mod_lt s (by norm_num [maxInt64])

/-- C7: a successful SaveZone appends exactly one UPDATE event for the zone to
the queue of every registered watcher; a successful DeleteZone appends exactly
one DELETE event to every watcher registered before it, and a watcher
registered afterwards starts with an empty queue; a failed storage write
leaves every watcher queue untouched. -/
theorem c7_watch_fanout (st : RepoState) (z : ZonePb) (zn : String) (e : Err) :
    (saveZoneRepo st z none).1.watchers =
      st.watchers.map (fun w =>
        { w with queue := w.queue ++ [{ zone := z.zone, event := "UPDATE" }] }) ∧
    saveZoneRepo st z (some e) = (st, some e) ∧
    (deleteZoneRepo st zn none).1.watchers =
      st.watchers.map (fun w =>
        { w with queue := w.queue ++ [{ zone := zn, event := "DELETE" }] }) ∧
    deleteZoneRepo st zn (some e) = (st, some e) ∧
    (registerWatch (deleteZoneRepo st zn none).1).1.watchers =
      (deleteZoneRepo st zn none).1.watchers ++
        [{ handle := (deleteZoneRepo st zn none).1.watchNum + 1, queue := [] }] :=
  ⟨rfl, rfl, rfl, rfl, rfl⟩

/-- C9: every certificate issued by the issuer service (root, intermediate,
server leaf, client leaf) carries a random serial number bounded by the
maximum signed 64-bit value: serial < 2 to the 63rd minus one. -/
theorem c9_serial_bounds :
    (∀ t cn desc key s c b, makeRootCert t cn desc key s = .ok (c, b) →
      c.serialNumber < 2 ^ 63 - 1) ∧
    (∀ t cn desc key rc rk s c b, makeIntermediateCert t cn desc key rc rk s = .ok (c, b) →
      c.serialNumber < 2 ^ 63 - 1) ∧
    (∀ t self cn domains ips ks ss ic, issueServerCert t self cn domains ips ks ss = .ok ic →
      ic.x509Cert.serialNumber < 2 ^ 63 - 1) ∧
    (∀ t self cn pw ks ss ic pfx, issueClientCert t self cn pw ks ss = .ok (ic, pfx) →
      ic.x509Cert.serialNumber < 2 ^ 63 - 1) := by
  refine ⟨?_, ?_, ?_, ?_⟩
  · intro t cn desc key s c b h
    unfold makeRootCert at h
    simp only [calculateSKID] at h
    split at h
    · exact absurd h (by simp)
    · simp only [Except.ok.injEq, Prod.mk.injEq] at h
      obtain ⟨hc, -⟩ := h
      subst hc
      simpa [createCertificate] using randInt_lt_maxInt64 s
  · intro t cn desc key rc rk s c b h
    unfold makeIntermediateCert at h
    simp only [calculateSKID] at h
    split at h
    · exact absurd h (by simp)
    · simp only [Except.ok.injEq, Prod.mk.injEq] at h
      obtain ⟨hc, -⟩ := h
      subst hc
      simpa [createCertificate] using randInt_lt_maxInt64 s
  · intro t self cn domains ips ks ss ic h
    unfold issueServerCert at h
    split at h
    · exact absurd h (by simp)
    · simp only [Except.ok.injEq] at h
      subst h
      simpa [createCertificate] using randInt_lt_maxInt64 ss
  · intro t self cn pw ks ss ic pfx h
    unfold issueClientCert at h
    split at h
    dsimp only at h
    split at h
    · exact absurd h (by simp)
    · simp only [Except.ok.injEq, Prod.mk.injEq] at h
      obtain ⟨hc, -⟩ := h
      subst hc
      simpa [createCertificate] using randInt_lt_maxInt64 ss

/-- Witness for C9 at concrete inputs. -/
theorem c9_serial_bounds_witness :
    rootPair1.1.serialNumber < 2 ^ 63 - 1 ∧
    interPair1.1.serialNumber < 2 ^ 63 - 1 ∧
    serverCert1.x509Cert.serialNumber < 2 ^ 63 - 1 ∧
    clientPair1.1.x509Cert.serialNumber < 2 ^ 63 - 1 := by
  obtain ⟨h1, h2, h3, h4⟩ := c9_serial_bounds
  refine ⟨h1 svc1 ("ca") desc1 key1 (2 ^ 20) rootPair1.1 rootPair1.2 (by rfl),
    h2 svc1 ("inter") desc1 { seed := 12 } rootIssuer1.cert.x509Cert rootIssuer1.cert.key
      (2 ^ 20 + 1) interPair1.1 interPair1.2 (by rfl),
    h3 svc1 rootIssuer1 ("") (["a.example.com", "*.a.example.com"]) [] 13 (2 ^ 20 + 2)
      serverCert1 (by rfl),
    h4 svc1 rootIssuer1 ("cli") ("") 14 (2 ^ 20 + 3) clientPair1.1 clientPair1.2 (by rfl)⟩

/-- C10: a create command whose provider kind argument is none of self, acme
or custom returns the empty string with a nil error: no usage text and no
error is produced. -/
theorem c10_create_unknown_provider (env : CmdEnv) (p : String) (rest : List String)
    (h1 : p ≠ "self") (h2 : p ≠ "acme") (h3 : p ≠ "custom") :
    executeCommand env ("create") (p :: rest) = .ret ("", none) := by
  have hx : executeCommand env ("create") (p :: rest) = createCert env (p :: rest) := rfl
  rw [hx]
  unfold createCert
  rw [if_neg (by simp)]
  simp only [List.getD_cons_zero, List.drop_succ_cons, List.drop_zero]

/-- Witness for C10 at a concrete input. -/
theorem c10_create_unknown_provider_witness :
    executeCommand baseEnv ("create") (["bogus"]) = .ret ("", none) :=
  c10_create_unknown_provider baseEnv ("bogus") [] (by decide) (by decide) (by decide)

/-- C8: CreateIssuer generates an RSA key and a self-signed root CA
certificate: no parent, IsCA true, validity from now to now plus 100 years,
subject key id equal to authority key id equal to the SHA-1 of the marshaled
public key, issuer name equal to the subject, and the certificate public key
matching the generated private key. -/
theorem c8_create_issuer (t : IssuerService) (cn : String) (info : CertificateDesc)
    (ks ss : Nat) (iss : CertificateIssuer)
    (h : createIssuer t cn info ks ss = .ok iss) :
    iss.parent = none ∧
    iss.cert.x509Cert.isCA = true ∧
    iss.cert.x509Cert.notBefore = GoTime.now ∧
    iss.cert.x509Cert.notAfter = GoTime.addDate GoTime.now 100 0 0 ∧
    iss.cert.x509Cert.subjectKeyId = some (KeyId.sha1OfSPKI iss.cert.key.pub) ∧
    iss.cert.x509Cert.authorityKeyId = some (KeyId.sha1OfSPKI iss.cert.key.pub) ∧
    iss.cert.x509Cert.issuer = iss.cert.x509Cert.subject ∧
    iss.cert.x509Cert.pubKey = iss.cert.key.pub := by
  unfold createIssuer makeRootIssuer makeRootCert makeKey at h
  simp only [calculateSKID] at h
  cases htag : serialTag3 (randInt ss maxInt64) with
  | error e =>
    rw [htag] at h
    exact absurd h (by simp)
  | ok tag =>
    rw [htag] at h
    simp only [readPrivateKey, readCert, pemDecode, pemBlocks, List.head?, publicKeysEqual,
      createCertificate, pemEncodeKey, pemEncodeCert, bne_self_eq_false, Bool.false_and,
      Bool.not_false, beq_self_eq_true, Bool.not_true, Bool.false_eq_true, reduceIte,
      Except.ok.injEq] at h
    subst h
    exact ⟨rfl, rfl, rfl, rfl, rfl, rfl, rfl, rfl⟩

/-- Witness for C8 at a concrete input. -/
theorem c8_create_issuer_witness :
    rootIssuer1.parent = none ∧
    rootIssuer1.cert.x509Cert.isCA = true ∧
    rootIssuer1.cert.x509Cert.notBefore = GoTime.now ∧
    rootIssuer1.cert.x509Cert.notAfter = GoTime.addDate GoTime.now 100 0 0 ∧
    rootIssuer1.cert.x509Cert.subjectKeyId =
      some (KeyId.sha1OfSPKI rootIssuer1.cert.key.pub) ∧
    rootIssuer1.cert.x509Cert.authorityKeyId =
      some (KeyId.sha1OfSPKI rootIssuer1.cert.key.pub) ∧
    rootIssuer1.cert.x509Cert.issuer = rootIssuer1.cert.x509Cert.subject ∧
    rootIssuer1.cert.x509Cert.pubKey = rootIssuer1.cert.key.pub :=
  c8_create_issuer svc1 ("ca") desc1 11 (2 ^ 20) rootIssuer1 (by rfl)

/-- C6: IssueServerCert issues a leaf whose SAN domain list is exactly the
input domains, whose issuer name is the signing certificate subject, and whose
validity runs from now to now plus 2 years and 30 days; in particular for the
input list a.example.com, *.a.example.com with a defaulted common name the
extracted domain list of the leaf is exactly that list. -/
theorem c6_server_cert_sans (t : IssuerService) (self : CertificateIssuer) (cn : String)
    (domains : List String) (ips : List IP) (ks ss : Nat) (ic : IssuedCertificate)
    (h : issueServerCert t self cn domains ips ks ss = .ok ic) :
    ic.x509Cert.dnsNames = domains ∧
    ic.x509Cert.issuer = self.cert.x509Cert.subject ∧
    ic.x509Cert.notBefore = GoTime.now ∧
    ic.x509Cert.notAfter = GoTime.addDate GoTime.now 2 0 30 ∧
    (cn = "" → domains = ["a.example.com", "*.a.example.com"] →
      extractDomains ic.x509Cert = ["a.example.com", "*.a.example.com"]) := by
  unfold issueServerCert at h
  split at h
  · exact absurd h (by simp)
  · next cn0 hcn =>
    simp only [Except.ok.injEq] at h
    subst h
    refine ⟨rfl, rfl, rfl, rfl, ?_⟩
    intro hc hd
    subst hc
    subst hd
    norm_num at hcn
    subst hcn
    simp [extractDomains, createCertificate, templateName, goReplaceAll, starChar,
      underscoreChar]

/-- Witness for C6 at a concrete input. -/
theorem c6_server_cert_sans_witness :
    serverCert1.x509Cert.dnsNames = ["a.example.com", "*.a.example.com"] ∧
    serverCert1.x509Cert.issuer = rootIssuer1.cert.x509Cert.subject ∧
    extractDomains serverCert1.x509Cert = ["a.example.com", "*.a.example.com"] := by
  obtain ⟨h1, h2, -, -, h5⟩ := c6_server_cert_sans svc1 rootIssuer1 ("")
    (["a.example.com", "*.a.example.com"]) [] 13 (2 ^ 20 + 2) serverCert1 (by rfl)
  exact ⟨h1, h2, h5 rfl rfl⟩

/-- C5: loading a persisted chain succeeds exactly when every level parses
(PEM key, PEM certificate) with a public key matching its private key, and a
successfully loaded chain has matching public and private keys at every
level. -/
theorem c5_load_issuer_iff (ss : SelfSignerPb) :
    (exOk (loadIssuerRecursive ss) = selfSignerParses ss) ∧
    (∀ ch, loadIssuerRecursive ss = .ok ch → issuerKeysMatch ch = true) := by
  match ss with
  | .mk n c k i? =>
  cases hk : readPrivateKey k with
  | error e =>
    have hred : loadIssuerRecursive (.mk n c k i?) =
        .error ("reading root private key, " ++ e) := by
      simp [loadIssuerRecursive, hk]
    constructor
    · rw [hred]; cases i? <;> simp [exOk, selfSignerParses, selfSignerLevelOk, hk]
    · intro ch hch; rw [hred] at hch; exact absurd hch (by simp)
  | ok key =>
  cases hc : readCert c with
  | error e =>
    have hred : loadIssuerRecursive (.mk n c k i?) =
        .error ("reading root x509Cert, " ++ e) := by
      simp [loadIssuerRecursive, hk, hc]
    constructor
    · rw [hred]; cases i? <;> simp [exOk, selfSignerParses, selfSignerLevelOk, hk, hc]
    · intro ch hch; rw [hred] at hch; exact absurd hch (by simp)
  | ok cert =>
  cases hb : (key.pub == cert.pubKey) with
  | false =>
    have hred : loadIssuerRecursive (.mk n c k i?) =
        .error ("public key in x509Cert doesn\x27t match private key") := by
      simp [loadIssuerRecursive, publicKeysEqual, hk, hc, hb]
    constructor
    · rw [hred]; cases i? <;> simp [exOk, selfSignerParses, selfSignerLevelOk, hk, hc, hb]
    · intro ch hch; rw [hred] at hch; exact absurd hch (by simp)
  | true =>
    have hkey : key.pub = cert.pubKey := by simpa using hb
    match i? with
    | none =>
      have hred : loadIssuerRecursive (.mk n c k none) =
          .ok (.mk { certContents := c, keyContents := k, x509Cert := cert, key := key }
            none) := by
        simp [loadIssuerRecursive, publicKeysEqual, hk, hc, hb]
      constructor
      · rw [hred]; simp [exOk, selfSignerParses, selfSignerLevelOk, hk, hc, hkey]
      · intro ch hch
        rw [hred] at hch
        injection hch with h
        subst h
        simp [issuerKeysMatch, hkey]
    | some i =>
      obtain ⟨ih1, ih2⟩ := c5_load_issuer_iff i
      cases hrec : loadIssuerRecursive i with
      | error e2 =>
        have hred : loadIssuerRecursive (.mk n c k (some i)) = .error e2 := by
          simp [loadIssuerRecursive, publicKeysEqual, hk, hc, hb, hrec]
        rw [hrec] at ih1
        simp only [exOk] at ih1
        constructor
        · rw [hred]
          simp [exOk, selfSignerParses, selfSignerLevelOk, hk, hc, hkey, ← ih1]
        · intro ch hch; rw [hred] at hch; exact absurd hch (by simp)
      | ok p =>
        have hred : loadIssuerRecursive (.mk n c k (some i)) =
            .ok (.mk { certContents := c, keyContents := k, x509Cert := cert, key := key }
              (some p)) := by
          simp [loadIssuerRecursive, publicKeysEqual, hk, hc, hb, hrec]
        rw [hrec] at ih1
        simp only [exOk] at ih1
        constructor
        · rw [hred]
          simp [exOk, selfSignerParses, selfSignerLevelOk, hk, hc, hkey, ← ih1]
        · intro ch hch
          rw [hred] at hch
          injection hch with h
          subst h
          simp [issuerKeysMatch, hkey, ih2 p hrec]

def c5SamplePb : SelfSignerPb := (issuerChainToPb rootIssuer1).withName ("ca")

def c5SampleChain : CertificateIssuer :=
  match loadIssuerRecursive c5SamplePb with
  | .ok ch => ch
  | .error _ => rootIssuer1

/-- Witness for C5 at a concrete input. -/
theorem c5_load_issuer_iff_witness :
    exOk (loadIssuerRecursive c5SamplePb) = selfSignerParses c5SamplePb ∧
    issuerKeysMatch c5SampleChain = true := by
  obtain ⟨h1, h2⟩ := c5_load_issuer_iff c5SamplePb
  exact ⟨h1, h2 c5SampleChain (by rfl)⟩

lemma withName_name (ss : SelfSignerPb) (nm : String) : (ss.withName nm).name = nm := by
  cases ss; rfl

lemma loadIssuerRecursive_withName (ss : SelfSignerPb) (nm : String) :
    loadIssuerRecursive (ss.withName nm) = loadIssuerRecursive ss := by
  cases ss; simp only [SelfSignerPb.withName, loadIssuerRecursive]

lemma chainMatchesPb_withName (ch : CertificateIssuer) (ss : SelfSignerPb) (nm : String) :
    chainMatchesPb ch (ss.withName nm) = chainMatchesPb ch ss := by
  obtain ⟨cert, p⟩ := ch
  obtain ⟨n, cb, kb, i⟩ := ss
  cases p <;> cases i <;> simp only [SelfSignerPb.withName, chainMatchesPb]

lemma pbDepth_withName (ss : SelfSignerPb) (nm : String) :
    pbDepth (ss.withName nm) = pbDepth ss := by
  obtain ⟨n, cb, kb, i⟩ := ss
  cases i <;> simp only [SelfSignerPb.withName, pbDepth]

lemma chainToPb_depth (ch : CertificateIssuer) :
    pbDepth (issuerChainToPb ch) = issuerDepth ch := by
  match ch with
  | .mk cert none => rfl
  | .mk cert (some p) => simp [issuerChainToPb, pbDepth, issuerDepth, chainToPb_depth p]

lemma load_chainToPb (ch : CertificateIssuer) (h : issuerWF ch = true) :
    loadIssuerRecursive (issuerChainToPb ch) = .ok ch := by
  match ch with
  | .mk ⟨cc, kc, xc, ky⟩ none =>
    simp only [issuerWF, Bool.and_eq_true, beq_iff_eq] at h
    obtain ⟨⟨h1, h2⟩, h3⟩ := h
    subst h1
    subst h2
    simp [loadIssuerRecursive, issuerChainToPb, readPrivateKey, readCert, pemDecode,
      pemBlocks, publicKeysEqual, pemEncodeKey, pemEncodeCert, h3]
  | .mk ⟨cc, kc, xc, ky⟩ (some p) =>
    simp only [issuerWF, Bool.and_eq_true, beq_iff_eq] at h
    obtain ⟨⟨⟨h1, h2⟩, h3⟩, h4⟩ := h
    have ih := load_chainToPb p h4
    subst h1
    subst h2
    simp [loadIssuerRecursive, issuerChainToPb, readPrivateKey, readCert, pemDecode,
      pemBlocks, publicKeysEqual, pemEncodeKey, pemEncodeCert, h3, ih]

lemma chainMatches_chainToPb (ch : CertificateIssuer) (h : issuerWF ch = true) :
    chainMatchesPb ch (issuerChainToPb ch) = true := by
  match ch with
  | .mk ⟨cc, kc, xc, ky⟩ none =>
    simp only [issuerWF, Bool.and_eq_true, beq_iff_eq] at h
    obtain ⟨⟨h1, h2⟩, h3⟩ := h
    simp [chainMatchesPb, issuerChainToPb, h3]
  | .mk ⟨cc, kc, xc, ky⟩ (some p) =>
    simp only [issuerWF, Bool.and_eq_true, beq_iff_eq] at h
    obtain ⟨⟨⟨h1, h2⟩, h3⟩, h4⟩ := h
    have ih := chainMatches_chainToPb p h4
    simp [chainMatchesPb, issuerChainToPb, h3, ih]

lemma createIssuer_wf (t : IssuerService) (cn : String) (info : CertificateDesc)
    (ks ss : Nat) (iss : CertificateIssuer) (h : createIssuer t cn info ks ss = .ok iss) :
    issuerWF iss = true ∧ iss.parent = none ∧ issuerDepth iss = 1 := by
  unfold createIssuer makeRootIssuer makeRootCert makeKey at h
  simp only [calculateSKID] at h
  cases htag : serialTag3 (randInt ss maxInt64) with
  | error e => rw [htag] at h; exact absurd h (by simp)
  | ok tag =>
    rw [htag] at h
    simp only [readPrivateKey, readCert, pemDecode, pemBlocks, List.head?, publicKeysEqual,
      createCertificate, pemEncodeKey, pemEncodeCert, bne_self_eq_false, Bool.false_and,
      Bool.not_false, beq_self_eq_true, Bool.not_true, Bool.false_eq_true, reduceIte,
      Except.ok.injEq] at h
    subst h
    refine ⟨?_, rfl, rfl⟩
    simp [issuerWF, createCertificate, pemEncodeCert, pemEncodeKey]

lemma issueInterCert_wf (t : IssuerService) (self : CertificateIssuer) (cn : String)
    (ks ss : Nat) (iss : CertificateIssuer) (h : issueInterCert t self cn ks ss = .ok iss)
    (hwf : issuerWF self = true) :
    issuerWF iss = true ∧ iss.parent = some self ∧
      issuerDepth iss = issuerDepth self + 1 := by
  unfold issueInterCert makeIntermediateIssuer makeIntermediateCert makeKey at h
  simp only [calculateSKID] at h
  cases htag : serialTag3 (randInt ss maxInt64) with
  | error e => rw [htag] at h; exact absurd h (by simp)
  | ok tag =>
    rw [htag] at h
    simp only [readPrivateKey, readCert, pemDecode, pemBlocks, List.head?, publicKeysEqual,
      createCertificate, pemEncodeKey, pemEncodeCert, bne_self_eq_false, Bool.false_and,
      Bool.not_false, beq_self_eq_true, Bool.not_true, Bool.false_eq_true, reduceIte,
      Except.ok.injEq] at h
    subst h
    refine ⟨?_, rfl, ?_⟩
    · cases self with
      | mk cert parent =>
        simp [issuerWF, createCertificate, pemEncodeCert, pemEncodeKey, hwf]
    · cases self with
      | mk cert parent => simp [issuerDepth]

lemma findSelfSigner_save (st : RepoState) (ss : SelfSignerPb) :
    findSelfSignerRepo (saveSelfSignerRepo st ss) ss.name = ss := by
  simp [findSelfSignerRepo, saveSelfSignerRepo]

/-- C4: a self-signer chain of depth one (root only) or two (root plus
intermediate) persisted by CreateSelfSigner round-trips: loading the stored
record succeeds and reproduces an equivalent chain of the same depth with the
same certificate and key bytes at every level and matching public and private
keys at every level. -/
theorem c4_selfsigner_roundtrip (svc : IssuerService) (st : RepoState) (cn : String)
    (withInter : Bool) (k1 s1 k2 s2 : Nat) (st' : RepoState)
    (h : createSelfSignerRepo svc st cn withInter k1 s1 k2 s2 = .ok st') :
    ∃ ch, loadIssuer (findSelfSignerRepo st' cn) = .ok ch ∧
      chainMatchesPb ch (findSelfSignerRepo st' cn) = true ∧
      issuerDepth ch = pbDepth (findSelfSignerRepo st' cn) ∧
      issuerDepth ch = (if withInter then 2 else 1) := by
  unfold createSelfSignerRepo at h
  simp only [loadCertificateDesc] at h
  cases hci : createIssuer svc cn
      { organization := svc.organization, country := svc.country, province := svc.province,
        city := svc.city, street := svc.street, zip := svc.zip } k1 s1 with
  | error e => rw [hci] at h; exact absurd h (by simp)
  | ok issuer0 =>
    rw [hci] at h
    obtain ⟨hwf0, hpar0, hdep0⟩ := createIssuer_wf svc cn _ k1 s1 issuer0 hci
    cases withInter with
    | false =>
      simp only [Bool.false_eq_true, reduceIte, Except.ok.injEq] at h
      subst h
      have hfind : findSelfSignerRepo
          (saveSelfSignerRepo st ((issuerChainToPb issuer0).withName cn)) cn =
          (issuerChainToPb issuer0).withName cn := by
        have hx := findSelfSigner_save st ((issuerChainToPb issuer0).withName cn)
        rwa [withName_name] at hx
      refine ⟨issuer0, ?_, ?_, ?_, ?_⟩
      · rw [hfind]
        show loadIssuerRecursive ((issuerChainToPb issuer0).withName cn) = .ok issuer0
        rw [loadIssuerRecursive_withName]
        exact load_chainToPb issuer0 hwf0
      · rw [hfind, chainMatchesPb_withName]
        exact chainMatches_chainToPb issuer0 hwf0
      · rw [hfind, pbDepth_withName, chainToPb_depth]
      · simp [hdep0]
    | true =>
      dsimp only at h
      cases hii : issueInterCert svc issuer0 cn k2 s2 with
      | error e => rw [hii] at h; exact absurd h (by simp)
      | ok issuer1 =>
        rw [hii] at h
        injection h with h2
        subst h2
        obtain ⟨hwf1, hpar1, hdep1⟩ := issueInterCert_wf svc issuer0 cn k2 s2 issuer1 hii hwf0
        have hfind : findSelfSignerRepo
            (saveSelfSignerRepo st ((issuerChainToPb issuer1).withName cn)) cn =
            (issuerChainToPb issuer1).withName cn := by
          have hx := findSelfSigner_save st ((issuerChainToPb issuer1).withName cn)
          rwa [withName_name] at hx
        refine ⟨issuer1, ?_, ?_, ?_, ?_⟩
        · rw [hfind]
          show loadIssuerRecursive ((issuerChainToPb issuer1).withName cn) = .ok issuer1
          rw [loadIssuerRecursive_withName]
          exact load_chainToPb issuer1 hwf1
        · rw [hfind, chainMatchesPb_withName]
          exact chainMatches_chainToPb issuer1 hwf1
        · rw [hfind, pbDepth_withName, chainToPb_depth]
        · simp [hdep1, hdep0]

def emptyRepoState : RepoState := { watchNum := 0, watchers := [], storage := fun _ => none }

def c4State : RepoState :=
  match createSelfSignerRepo svc1 emptyRepoState ("ca") true 31 (2 ^ 20 + 21)
      32 (2 ^ 20 + 22) with
  | .ok st => st
  | .error _ => emptyRepoState

def c4Chain : CertificateIssuer :=
  match loadIssuer (findSelfSignerRepo c4State ("ca")) with
  | .ok ch => ch
  | .error _ => rootIssuer1

/-- Witness for C4 at a concrete input: a root plus intermediate chain. -/
theorem c4_selfsigner_roundtrip_witness :
    loadIssuer (findSelfSignerRepo c4State ("ca")) = .ok c4Chain ∧
    chainMatchesPb c4Chain (findSelfSignerRepo c4State ("ca")) = true ∧
    issuerDepth c4Chain = pbDepth (findSelfSignerRepo c4State ("ca")) ∧
    issuerDepth c4Chain = 2 := by
  obtain ⟨ch, h1, h2, h3, h4⟩ := c4_selfsigner_roundtrip svc1 emptyRepoState ("ca") true
    31 (2 ^ 20 + 21) 32 (2 ^ 20 + 22) c4State (by rfl)
  have hch : c4Chain = ch := by simp [c4Chain, h1]
  rw [hch]
  simp only [if_pos rfl] at h4
  exact ⟨h1, h2, h3, h4⟩

lemma createCert_self_arg (env : CmdEnv) (args : List String) :
    createCert env (("self") :: args) = .ret (createSelfCert env args) := by
  unfold createCert; rw [if_neg (by simp)]; rfl

lemma createCert_acme_arg (env : CmdEnv) (args : List String) :
    createCert env (("acme") :: args) = createAcmeCert env args := by
  unfold createCert; rw [if_neg (by simp)]; rfl

lemma createCert_custom_arg (env : CmdEnv) (args : List String) :
    createCert env (("custom") :: args) = .ret (createCustomCert env args) := by
  unfold createCert; rw [if_neg (by simp)]; rfl

lemma clientCert_install_arg (env : CmdEnv) (args : List String) :
    clientCert env (("install") :: args) = installClientCert env args := by
  unfold clientCert; rw [if_neg (by simp)]; rfl

lemma acmeCommand_create_arg (env : CmdEnv) (args : List String) :
    acmeCommand env (("create") :: args) = acmeCreate env args := by
  unfold acmeCommand; rw [if_neg (by simp)]; rfl

lemma acmeCommand_upload_arg (env : CmdEnv) (args : List String) :
    acmeCommand env (("upload") :: args) = acmeUpload env args := by
  unfold acmeCommand; rw [if_neg (by simp)]; rfl

lemma acmeCommand_dump_arg (env : CmdEnv) (args : List String) :
    acmeCommand env (("dump") :: args) = acmeDump env args := by
  unfold acmeCommand; rw [if_neg (by simp)]; rfl

lemma selfCommand_create_arg (env : CmdEnv) (args : List String) :
    selfCommand env (("create") :: args) = selfCreate env args := by
  unfold selfCommand; rw [if_neg (by simp)]; rfl

lemma selfCommand_upload_arg (env : CmdEnv) (args : List String) :
    selfCommand env (("upload") :: args) = selfUpload env args := by
  unfold selfCommand; rw [if_neg (by simp)]; rfl

lemma selfCommand_dump_arg (env : CmdEnv) (args : List String) :
    selfCommand env (("dump") :: args) = selfDump env args := by
  unfold selfCommand; rw [if_neg (by simp)]; rfl

/-- C2: every administrative command that requires arguments (dump, upload,
create, create self, create acme, create custom, renew, remove, client
install, and the acme and self subcommands), invoked through ExecuteCommand
with fewer than the required number of arguments, returns a usage string with
a nil error - a successful result, not an error. -/
theorem c2_missing_args_usage (env : CmdEnv) :
    (∀ args, args.length < 1 → executeCommand env ("dump") args =
      .ret ("Usage: ./" ++ env.appName ++ " cert dump zone", none)) ∧
    (∀ args, args.length < 1 → executeCommand env ("upload") args =
      .ret ("Usage: ./" ++ env.appName ++ " cert upload dump_file.json", none)) ∧
    (∀ args, args.length < 1 → executeCommand env ("create") args =
      .ret ("Usage: ./" ++ env.appName ++ " cert create cert_provider [self,acme,custom]",
        none)) ∧
    (∀ args, args.length < 1 → executeCommand env ("create") (("self") :: args) =
      .ret ("Usage: ./" ++ env.appName ++ " cert create self domain [self-signer]", none)) ∧
    (∀ args, args.length < 2 → executeCommand env ("create") (("acme") :: args) =
      .ret ("Usage: ./" ++ env.appName ++ " cert create acme domain email [dns_provider]",
        none)) ∧
    (∀ args, args.length < 4 → executeCommand env ("create") (("custom") :: args) =
      .ret ("Usage: ./" ++ env.appName ++
        " cert create custom domain cert_file key_file issuer_cert_file", none)) ∧
    (∀ args, args.length < 1 → executeCommand env ("renew") args =
      .ret ("Usage: ./" ++ env.appName ++ " cert renew zone", none)) ∧
    (∀ args, args.length < 1 → executeCommand env ("remove") args =
      .ret ("Usage: ./" ++ env.appName ++ " cert remove zone", none)) ∧
    (∀ args, args.length < 1 → executeCommand env ("client") args =
      .ret ("Usage: ./" ++ env.appName ++ " cert client [install]", none)) ∧
    (∀ args, args.length < 1 → executeCommand env ("client") (("install") :: args) =
      .ret ("Usage: ./" ++ env.appName ++ " cert client install zone", none)) ∧
    (∀ args, args.length < 1 → executeCommand env ("acme") args =
      .ret ("Usage: ./" ++ env.appName ++ " cert acme [list create upload dump]", none)) ∧
    (∀ args, args.length < 1 → executeCommand env ("acme") (("create") :: args) =
      .ret ("Usage: ./" ++ env.appName ++ " cert acme create email", none)) ∧
    (∀ args, args.length < 1 → executeCommand env ("acme") (("upload") :: args) =
      .ret ("Usage: ./" ++ env.appName ++ " cert acme upload dump_file.json", none)) ∧
    (∀ args, args.length < 1 → executeCommand env ("acme") (("dump") :: args) =
      .ret ("Usage: ./" ++ env.appName ++ " cert acme dump email", none)) ∧
    (∀ args, args.length < 1 → executeCommand env ("self") args =
      .ret ("Usage: ./" ++ env.appName ++ " cert self [list create upload dump]", none)) ∧
    (∀ args, args.length < 1 → executeCommand env ("self") (("create") :: args) =
      .ret ("Usage: ./" ++ env.appName ++ " cert self create cn", none)) ∧
    (∀ args, args.length < 1 → executeCommand env ("self") (("upload") :: args) =
      .ret ("Usage: ./" ++ env.appName ++ " cert self upload dump_file_json", none)) ∧
    (∀ args, args.length < 1 → executeCommand env ("self") (("dump") :: args) =
      .ret ("Usage: ./" ++ env.appName ++ " cert self dump cn", none)) := by
  refine ⟨?_, ?_, ?_, ?_, ?_, ?_, ?_, ?_, ?_, ?_, ?_, ?_, ?_, ?_, ?_, ?_, ?_, ?_⟩
  · intro args h
    have hx : executeCommand env ("dump") args = .ret (dumpCert env args) := rfl
    rw [hx]; unfold dumpCert; rw [if_pos h]
  · intro args h
    have hx : executeCommand env ("upload") args = .ret (uploadCert env args) := rfl
    rw [hx]; unfold uploadCert; rw [if_pos h]
  · intro args h
    have hx : executeCommand env ("create") args = createCert env args := rfl
    rw [hx]; unfold createCert; rw [if_pos h]
  · intro args h
    have hx : executeCommand env ("create") (("self") :: args) =
      createCert env (("self") :: args) := rfl
    rw [hx, createCert_self_arg]; unfold createSelfCert; rw [if_pos h]
  · intro args h
    have hx : executeCommand env ("create") (("acme") :: args) =
      createCert env (("acme") :: args) := rfl
    rw [hx, createCert_acme_arg]; unfold createAcmeCert; rw [if_pos h]
  · intro args h
    have hx : executeCommand env ("create") (("custom") :: args) =
      createCert env (("custom") :: args) := rfl
    rw [hx, createCert_custom_arg]; unfold createCustomCert; rw [if_pos h]
  · intro args h
    have hx : executeCommand env ("renew") args = renewCert env args := rfl
    rw [hx]; unfold renewCert; rw [if_pos h]
  · intro args h
    have hx : executeCommand env ("remove") args = .ret (removeCert env args) := rfl
    rw [hx]; unfold removeCert; rw [if_pos h]
  · intro args h
    have hx : executeCommand env ("client") args = .ret (clientCert env args) := rfl
    rw [hx]; unfold clientCert; rw [if_pos h]
  · intro args h
    have hx : executeCommand env ("client") (("install") :: args) =
      .ret (clientCert env (("install") :: args)) := rfl
    rw [hx, clientCert_install_arg]; unfold installClientCert; rw [if_pos h]
  · intro args h
    have hx : executeCommand env ("acme") args = .ret (acmeCommand env args) := rfl
    rw [hx]; unfold acmeCommand; rw [if_pos h]
  · intro args h
    have hx : executeCommand env ("acme") (("create") :: args) =
      .ret (acmeCommand env (("create") :: args)) := rfl
    rw [hx, acmeCommand_create_arg]; unfold acmeCreate; rw [if_pos h]
  · intro args h
    have hx : executeCommand env ("acme") (("upload") :: args) =
      .ret (acmeCommand env (("upload") :: args)) := rfl
    rw [hx, acmeCommand_upload_arg]; unfold acmeUpload; rw [if_pos h]
  · intro args h
    have hx : executeCommand env ("acme") (("dump") :: args) =
      .ret (acmeCommand env (("dump") :: args)) := rfl
    rw [hx, acmeCommand_dump_arg]; unfold acmeDump; rw [if_pos h]
  · intro args h
    have hx : executeCommand env ("self") args = .ret (selfCommand env args) := rfl
    rw [hx]; unfold selfCommand; rw [if_pos h]
  · intro args h
    have hx : executeCommand env ("self") (("create") :: args) =
      .ret (selfCommand env (("create") :: args)) := rfl
    rw [hx, selfCommand_create_arg]; unfold selfCreate; rw [if_pos h]
  · intro args h
    have hx : executeCommand env ("self") (("upload") :: args) =
      .ret (selfCommand env (("upload") :: args)) := rfl
    rw [hx, selfCommand_upload_arg]; unfold selfUpload; rw [if_pos h]
  · intro args h
    have hx : executeCommand env ("self") (("dump") :: args) =
      .ret (selfCommand env (("dump") :: args)) := rfl
    rw [hx, selfCommand_dump_arg]; unfold selfDump; rw [if_pos h]

/-- Witness for C2: every listed command invoked with no arguments at a
concrete environment. -/
theorem c2_missing_args_usage_witness :
    executeCommand baseEnv ("dump") [] =
      .ret ("Usage: ./" ++ baseEnv.appName ++ " cert dump zone", none) ∧
    executeCommand baseEnv ("upload") [] =
      .ret ("Usage: ./" ++ baseEnv.appName ++ " cert upload dump_file.json", none) ∧
    executeCommand baseEnv ("create") [] =
      .ret ("Usage: ./" ++ baseEnv.appName ++ " cert create cert_provider [self,acme,custom]",
        none) ∧
    executeCommand baseEnv ("create") (["self"]) =
      .ret ("Usage: ./" ++ baseEnv.appName ++ " cert create self domain [self-signer]",
        none) ∧
    executeCommand baseEnv ("create") (["acme", "d.com"]) =
      .ret ("Usage: ./" ++ baseEnv.appName ++ " cert create acme domain email [dns_provider]",
        none) ∧
    executeCommand baseEnv ("create") (["custom", "d.com", "c.pem", "k.pem"]) =
      .ret ("Usage: ./" ++ baseEnv.appName ++
        " cert create custom domain cert_file key_file issuer_cert_file", none) ∧
    executeCommand baseEnv ("renew") [] =
      .ret ("Usage: ./" ++ baseEnv.appName ++ " cert renew zone", none) ∧
    executeCommand baseEnv ("remove") [] =
      .ret ("Usage: ./" ++ baseEnv.appName ++ " cert remove zone", none) ∧
    executeCommand baseEnv ("client") [] =
      .ret ("Usage: ./" ++ baseEnv.appName ++ " cert client [install]", none) ∧
    executeCommand baseEnv ("client") (["install"]) =
      .ret ("Usage: ./" ++ baseEnv.appName ++ " cert client install zone", none) ∧
    executeCommand baseEnv ("acme") [] =
      .ret ("Usage: ./" ++ baseEnv.appName ++ " cert acme [list create upload dump]", none) ∧
    executeCommand baseEnv ("acme") (["create"]) =
      .ret ("Usage: ./" ++ baseEnv.appName ++ " cert acme create email", none) ∧
    executeCommand baseEnv ("acme") (["upload"]) =
      .ret ("Usage: ./" ++ baseEnv.appName ++ " cert acme upload dump_file.json", none) ∧
    executeCommand baseEnv ("acme") (["dump"]) =
      .ret ("Usage: ./" ++ baseEnv.appName ++ " cert acme dump email", none) ∧
    executeCommand baseEnv ("self") [] =
      .ret ("Usage: ./" ++ baseEnv.appName ++ " cert self [list create upload dump]", none) ∧
    executeCommand baseEnv ("self") (["create"]) =
      .ret ("Usage: ./" ++ baseEnv.appName ++ " cert self create cn", none) ∧
    executeCommand baseEnv ("self") (["upload"]) =
      .ret ("Usage: ./" ++ baseEnv.appName ++ " cert self upload dump_file_json", none) ∧
    executeCommand baseEnv ("self") (["dump"]) =
      .ret ("Usage: ./" ++ baseEnv.appName ++ " cert self dump cn", none) := by
  obtain ⟨h1, h2, h3, h4, h5, h6, h7, h8, h9, h10, h11, h12, h13, h14, h15, h16, h17, h18⟩ :=
    c2_missing_args_usage baseEnv
  exact ⟨h1 [] (by decide), h2 [] (by decide), h3 [] (by decide), h4 [] (by decide),
    h5 (["d.com"]) (by decide), h6 (["d.com", "c.pem", "k.pem"]) (by decide),
    h7 [] (by decide), h8 [] (by decide), h9 [] (by decide), h10 [] (by decide),
    h11 [] (by decide), h12 [] (by decide), h13 [] (by decide), h14 [] (by decide),
    h15 [] (by decide), h16 [] (by decide), h17 [] (by decide), h18 [] (by decide)⟩

/-- C1: when the Obtain or Renew call inside IssueAcmeCertificate fails, the
error computed inside the doAcmeCall callback is never returned to the caller:
the callback err shadows the function err, the post-call check reads the
still-nil function err, and the function dereferences the nil certificate
resource while building entry.Certificates instead of returning the error.
In the model the outcome is the nil-dereference panic, and in particular not
an error return. -/
theorem c1_acme_error_swallowed (env : CmdEnv) (entry : ZonePb) (prov : DNSProvider)
    (user : AcmeUser) (e : Err)
    (hdom : entry.domains.length ≠ 0)
    (hprov : entry.dnsProvider ≠ "")
    (hzone : (trimDots entry.zone).data.contains dotChar = true)
    (huser : getOrCreateAcmeUser env (effectiveAcmeEmail entry) = .ok user)
    (hcli : env.legoNewClient = .ok ())
    (hlook : env.providerMap.lookup entry.dnsProvider = some prov)
    (hchal : prov.registerChallenge entry.dnsProviderToken = none)
    (hreg : env.queryRegistration = .ok ())
    (hfail : theAcmeCall env entry = .error e) :
    issueAcmeCertificate env entry = .nilDeref ∧
    ∀ e2, issueAcmeCertificate env entry ≠ .fail e2 := by
  have swallows : ∀ E : ZonePb, getOrCreateAcmeUser env E.acmeEmail = .ok user →
      env.providerMap.lookup E.dnsProvider = some prov →
      prov.registerChallenge E.dnsProviderToken = none →
      theAcmeCall env E = .error e →
      issueAcmeValidated env E = .nilDeref := by
    intro E h1 h2 h3 h4
    unfold issueAcmeValidated
    rw [h1, hcli, h2]
    dsimp only
    rw [h3]
    unfold acmeClosure
    rw [hreg, h4]
    rfl
  have key : issueAcmeCertificate env entry = .nilDeref := by
    unfold issueAcmeCertificate
    rw [if_neg hdom, if_neg hprov, if_neg (by rw [hzone]; simp)]
    by_cases hmail : entry.acmeEmail = ""
    · rw [if_pos hmail]
      refine swallows _ ?_ hlook hchal hfail
      show getOrCreateAcmeUser env ("admin@" ++ firstElement entry.domains) = .ok user
      unfold effectiveAcmeEmail at huser
      rw [if_pos hmail] at huser
      exact huser
    · rw [if_neg hmail]
      refine swallows _ ?_ hlook hchal hfail
      unfold effectiveAcmeEmail at huser
      rw [if_neg hmail] at huser
      exact huser
  exact ⟨key, fun e2 h2 => by rw [key] at h2; exact AcmeCallResult.noConfusion h2⟩

def envC1 : CmdEnv := { baseEnv with obtain := .error ("acme: obtain failed") }

def entryC1 : ZonePb :=
  { emptyZonePb with
    zone := "ex.com"
    domains := ["ex.com", "*.ex.com"]
    certProvider := "acme"
    acmeEmail := "a@b.com"
    dnsProvider := "gandi" }

/-- Witness for C1 at a concrete input: a failing Obtain call. -/
theorem c1_acme_error_swallowed_witness :
    issueAcmeCertificate envC1 entryC1 = .nilDeref ∧
    issueAcmeCertificate envC1 entryC1 ≠ .fail ("acme: obtain failed") := by
  obtain ⟨k1, k2⟩ := c1_acme_error_swallowed envC1 entryC1 provOk
    { email := "a@b.com", privateKey := { seed := 7 } } ("acme: obtain failed")
    (by decide) (by decide) (by decide) (by rfl) (by rfl) (by rfl) (by rfl) (by rfl) (by rfl)
  exact ⟨k1, k2 ("acme: obtain failed")⟩

def env3 : CmdEnv := { baseEnv with providerMap := [], providerList := [] }

/-- Counterexample to C3 as stated: with every other step in order, a create
acme invocation whose resolved DNS provider is not in the provider map
returns an error, not a success message with a warning. -/
theorem c3_counterexample_provider_not_found :
    createAcmeCert env3 (["example.com", "a@b.com", "gandi"]) =
      .ret ("", some ("dns provider " ++ sq ("gandi") ++
        " not found in supported list []")) := by rfl

/-- C3 amended: when the resolved DNS provider is not found among the
registered providers, the create acme command fails with an error; the
condition reported as a warning appended to the success message is a found
provider whose client construction fails (missing token), provided the other
steps (account lookup, issuance, persistence) succeed. -/
theorem c3_provider_not_found_fails :
    (∀ env d em p acc puny fz ez,
      env.findAccount (goToLower em) = .ok acc →
      env.idnaToASCII (unFqdn d) = .ok puny →
      env.findZoneByFqdn (toFqdn puny) = .ok fz →
      env.findZone (unFqdn fz) = .ok ez → ez.zone = "" →
      goToLower p ≠ "" →
      env.providerMap.lookup (goToLower p) = none →
      createAcmeCert env ([d, em, p]) =
        .ret ("", some ("dns provider " ++ sq (goToLower p) ++
          " not found in supported list " ++ goFmtStrs env.providerList))) ∧
    (∀ env d em p acc puny fz ez prov ce user res x509Cert,
      env.findAccount (goToLower em) = .ok acc →
      acc.email = goToLower em →
      env.idnaToASCII (unFqdn d) = .ok puny →
      env.findZoneByFqdn (toFqdn puny) = .ok fz →
      env.findZone (unFqdn fz) = .ok ez → ez.zone = "" →
      goToLower p ≠ "" →
      env.providerMap.lookup (goToLower p) = some prov →
      prov.newClient = .error ce →
      goToLower em ≠ "" →
      (trimDots (unFqdn fz)).data.contains dotChar = true →
      getOrCreateAcmeUser env (goToLower em) = .ok user →
      env.legoNewClient = .ok () →
      prov.registerChallenge ("") = none →
      env.queryRegistration = .ok () →
      env.obtain = .ok res →
      parseCertificate (some (fromResource res)) = .ok x509Cert →
      (∀ z, env.saveZone z = none) →
      createAcmeCert env ([d, em, p]) =
        .ret ((env.acmeLog ++ "\nAcme issued certificate [" ++ unFqdn fz ++
          "] for domains " ++ goFmtStrs (extractDomains x509Cert) ++ " with " ++
          toString (env.hoursLeft x509Cert.notAfter) ++ " hours remaining") ++ "\n" ++
          ("Warning: token for DNS provider " ++ goToLower p ++ " not found, " ++ ce),
          none)) := by
  constructor
  · intro env d em p acc puny fz ez hacc hidna hfq hfind hez hp hlook
    unfold createAcmeCert
    rw [if_neg (by simp)]
    simp only [List.getD_cons_zero, List.getD_cons_succ, List.length_cons, List.length_nil]
    rw [if_pos (by norm_num)]
    rw [hacc]
    dsimp only
    rw [hidna]
    dsimp only
    unfold toZoneEnv
    rw [hfq]
    dsimp only
    rw [hfind]
    dsimp only
    rw [if_neg (by simp [hez])]
    rw [if_neg hp]
    dsimp only
    rw [hlook]
  · intro env d em p acc puny fz ez prov ce user res x509Cert hacc haccm hidna hfq hfind
      hez hp hlook hnc hm hz huser hcli hchal hreg hobt hparse hsave
    unfold createAcmeCert
    rw [if_neg (by simp)]
    simp only [List.getD_cons_zero, List.getD_cons_succ, List.length_cons, List.length_nil]
    rw [if_pos (by norm_num)]
    rw [hacc]
    dsimp only
    rw [hidna]
    dsimp only
    unfold toZoneEnv
    rw [hfq]
    dsimp only
    rw [hfind]
    dsimp only
    rw [if_neg (by simp [hez])]
    rw [if_neg hp]
    dsimp only
    rw [hlook]
    dsimp only
    rw [hnc]
    dsimp only
    have hissue : issueAcmeCertificate env
        { emptyZonePb with
          zone := unFqdn fz, domains := [unFqdn fz, "*." ++ unFqdn fz],
          certProvider := "acme", acmeEmail := goToLower em,
          dnsProvider := goToLower p } =
        .ret env.acmeLog
          { emptyZonePb with
            zone := unFqdn fz, domains := [unFqdn fz, "*." ++ unFqdn fz],
            certProvider := "acme", acmeEmail := goToLower em,
            dnsProvider := goToLower p,
            certificates := some (fromResource res) } := by
      unfold issueAcmeCertificate
      rw [if_neg (by simp)]
      rw [if_neg hp]
      rw [if_neg (by rw [show ({ emptyZonePb with
          zone := unFqdn fz, domains := [unFqdn fz, "*." ++ unFqdn fz],
          certProvider := "acme", acmeEmail := goToLower em,
          dnsProvider := goToLower p } : ZonePb).zone = unFqdn fz from rfl, hz]; simp)]
      rw [if_neg hm]
      unfold issueAcmeValidated
      rw [huser, hcli, hlook]
      dsimp only
      simp only [emptyZonePb]
      rw [hchal]
      unfold acmeClosure theAcmeCall
      rw [hreg]
      dsimp only
      rw [hobt]
      rfl
    rw [hissue]
    dsimp only
    rw [hparse]
    dsimp only
    rw [hsave]
    dsimp only
    rw [if_neg (by simp [haccm])]

def provNoToken : DNSProvider :=
  { registerChallenge := fun _ => none, newClient := .error ("no token"), detect := fun _ => true }

def envB : CmdEnv :=
  { baseEnv with providerMap := [("gandi", provNoToken)], providerList := ["gandi"] }

/-- Witness for the amended C3 at concrete inputs: a missing provider fails,
a found provider with a failing client construction succeeds with the token
warning appended. -/
theorem c3_provider_not_found_fails_witness :
    createAcmeCert env3 (["example.com", "a@b.com", "gandi"]) =
      .ret ("", some ("dns provider " ++ sq (goToLower ("gandi")) ++
        " not found in supported list " ++ goFmtStrs env3.providerList)) ∧
    createAcmeCert envB (["example.com", "a@b.com", "gandi"]) =
      .ret ((envB.acmeLog ++ "\nAcme issued certificate [" ++ unFqdn ("example.com.") ++
        "] for domains " ++ goFmtStrs (extractDomains leafCert1) ++ " with " ++
        toString (envB.hoursLeft leafCert1.notAfter) ++ " hours remaining") ++ "\n" ++
        ("Warning: token for DNS provider " ++ goToLower ("gandi") ++ " not found, " ++
          "no token"), none) := by
  obtain ⟨ha, hb⟩ := c3_provider_not_found_fails
  refine ⟨ha env3 ("example.com") ("a@b.com") ("gandi")
      { email := "a@b.com", publicKey := .str "PUB", privateKey := .str "PRIV" }
      ("example.com") ("example.com.") emptyZonePb
      (by rfl) (by rfl) (by rfl) (by rfl) (by rfl) (by decide) (by rfl), ?_⟩
  exact hb envB ("example.com") ("a@b.com") ("gandi")
    { email := "a@b.com", publicKey := .str "PUB", privateKey := .str "PRIV" }
    ("example.com") ("example.com.") emptyZonePb provNoToken ("no token")
    { email := "a@b.com", privateKey := { seed := 7 } } resource1 leafCert1
    (by rfl) (by rfl) (by rfl) (by rfl) (by rfl) (by rfl) (by decide) (by rfl) (by rfl)
    (by decide) (by decide) (by rfl) (by rfl) (by rfl) (by rfl) (by rfl) (by rfl)
    (fun z => by rfl)

end SprintCert
